import Mathlib

/-!
# makcu-cpp-lib: the serial transport (`src/SerialTransport.cpp`)

A shallow embedding of `makcu::SerialTransportImpl`.  The object's fields are a
record, every Win32 call the code makes is answered by an explicit `OS` record,
and every call that reaches the operating system is appended to a trace of
`Event`s, in program order.  A member function becomes a function from the
`OS` answers and the object to an `Exec`: how the call ended, the object
afterwards, and the events it issued.
-/

namespace makcu

/-! ## Data model -/

/-- Model of `SerialTransport::Config` (`SerialTransport.h`), with its default member
initialisers. -/
structure Config where
  fallbackComPort : String := ""
  debug : Bool := false
  sendInit : Bool := true
  autoReconnect : Bool := true
  overridePort : Bool := false
deriving DecidableEq, Repr

/-- A Win32 `HANDLE`, as the number it holds. -/
abbrev HANDLE := Nat

/-- The constant `INVALID_HANDLE_VALUE`, that is `(HANDLE)-1` on a 64-bit target. -/
def INVALID_HANDLE_VALUE : HANDLE := 2 ^ 64 - 1

/-- The frame `BAUD_CHANGE_CMD` of the anonymous namespace. -/
def BAUD_CHANGE_CMD : List Nat := [0xDE, 0xAD, 0x05, 0x00, 0xA5, 0x00, 0x09, 0x3D, 0x00]

/-- The constant `INITIAL_BAUD`. -/
def INITIAL_BAUD : Nat := 115200

/-- The constant `TARGET_BAUD`. -/
def TARGET_BAUD : Nat := 4000000

/-- The constant `BAUD_CHANGE_DELAY_MS`. -/
def BAUD_CHANGE_DELAY_MS : Nat := 20

/-- The constant `MAX_RECONNECT_ATTEMPTS`; no function of the source reads it. -/
def MAX_RECONNECT_ATTEMPTS : Int := 3

/-- The registry value type `REG_SZ`. -/
def REG_SZ : Nat := 1

/-- The Win32 error code `ERROR_IO_PENDING`. -/
def ERROR_IO_PENDING : Nat := 997

/-- The exception classes of `errors.h`, each with its message. -/
inductive MakcuError where
  | MakcuConnectionError (message : String)
  | MakcuCommandError (message : String)
  | MakcuTimeoutError (message : String)
  | MakcuResponseError (message : String)
deriving DecidableEq, Repr

/-- The fields of a `DCB` that the code writes; the rest is what `GetCommState` gave. -/
structure DCB where
  BaudRate : Nat
  ByteSize : Nat
  StopBits : Nat
  Parity : Nat
  fDtrControl : Nat
  fRtsControl : Nat
deriving DecidableEq, Repr

/-- The structure `COMMTIMEOUTS`. -/
structure COMMTIMEOUTS where
  ReadIntervalTimeout : Nat
  ReadTotalTimeoutConstant : Nat
  ReadTotalTimeoutMultiplier : Nat
  WriteTotalTimeoutConstant : Nat
  WriteTotalTimeoutMultiplier : Nat
deriving DecidableEq, Repr

/-- One value as `RegEnumValueA` reports it: its type, the size of its data, and the
C string that `ports.emplace_back(data)` reads from the data buffer. -/
structure RegValue where
  type : Nat
  dataSize : Nat
  data : String
deriving DecidableEq, Repr

/-- What one `ReadFile` of the listener gives: failure with the `GetLastError` code, or
success with the bytes read (possibly none). -/
inductive ReadResult where
  | failed (lastError : Nat)
  | read (bytes : List Nat)
deriving DecidableEq, Repr

/-- The answers of the operating system to the calls of one member function.  A call
that occurs at two places of `connect` has one answer per place. -/
structure OS where
  /-- Whether `RegOpenKeyExA` on `HARDWARE\DEVICEMAP\SERIALCOMM` gives `ERROR_SUCCESS`. -/
  regOpenKeyEx : Bool
  /-- The values `RegEnumValueA` gives at index 0, 1, ...; past the end it fails. -/
  regEnumValue : List RegValue
  /-- The handle `CreateFileA` returns for a path, `INVALID_HANDLE_VALUE` on failure. -/
  createFile : String → HANDLE
  /-- The call `GetCommState` in `openSerialPort`: the DCB read, or failure. -/
  getCommStateOpen : Option DCB
  /-- The call `SetCommState` in `openSerialPort`. -/
  setCommStateOpen : Bool
  /-- The call `SetCommTimeouts` in `openSerialPort`. -/
  setCommTimeouts : Bool
  /-- The call `WriteFile` of the given bytes on the given handle. -/
  writeFile : HANDLE → List Nat → Bool
  /-- The call `GetCommState` in `changeBaudTo4M`. -/
  getCommStateBaud : Option DCB
  /-- The call `SetCommState` in `changeBaudTo4M`. -/
  setCommStateBaud : Bool
  /-- The call `ReadFile` of the listener: what the device sent. -/
  readFile : ReadResult

/-- A call that leaves the process, in the order the code makes them. -/
inductive Event where
  | log (msg level : String)
  | regOpenKeyEx
  | regEnumValue (index : Nat)
  | regCloseKey
  | createFile (path : String) (result : HANDLE)
  | closeHandle (h : HANDLE)
  | getCommState (h : HANDLE)
  | setCommState (h : HANDLE) (dcb : DCB)
  | setCommTimeouts (h : HANDLE) (timeouts : COMMTIMEOUTS)
  | purgeComm (h : HANDLE)
  | writeFile (h : HANDLE) (bytes : List Nat)
  | flushFileBuffers (h : HANDLE)
  | sleep (ms : Nat)
  | readFile (h : HANDLE)
  | threadStart
  | threadJoin
deriving DecidableEq, Repr

/-- The member `listenerThread_`: a `std::thread` that owns no thread, one whose
`listenerThread()` is still in its loop, or one whose `listenerThread()` has returned
and that has not been joined. -/
inductive ThreadState where
  | notJoinable
  | running
  | exited
deriving DecidableEq, Repr

/-- The call `std::thread::joinable()`. -/
def ThreadState.joinable : ThreadState → Bool
  | .notJoinable => false
  | .running => true
  | .exited => true

/-- The fields of `class SerialTransportImpl` with their default member initialisers.
`buttonCallback_` is kept as the identity of the stored callable. -/
structure SerialTransportImpl where
  config_ : Config
  hSerial_ : HANDLE := INVALID_HANDLE_VALUE
  port_ : String := ""
  currentBaud_ : Nat := 0
  connected_ : Bool := false
  stopListener_ : Bool := false
  listenerThread_ : ThreadState := .notJoinable
  buttonCallback_ : Option Nat := none
  lastButtonMask_ : Int := 0
  buttonStates_ : Int := 0
  reconnectAttempts_ : Int := 0
deriving DecidableEq, Repr

/-- The constructor `SerialTransportImpl(const Config& cfg)`. -/
def SerialTransportImpl.new (cfg : Config) : SerialTransportImpl :=
  { config_ := cfg }

/-- How a call ended: it returned a value, it threw, or the process was ended by
`std::terminate` (assigning to a joinable `std::thread`). -/
inductive Outcome (α : Type) where
  | returned (value : α)
  | threw (e : MakcuError)
  | terminated
deriving DecidableEq, Repr

/-- A finished call: its outcome, the object afterwards, the events it issued. -/
structure Exec (α : Type) where
  outcome : Outcome α
  state : SerialTransportImpl
  trace : List Event
deriving DecidableEq, Repr

/-- The bytes of a `std::string`: one byte per character. -/
def bytesOf (s : String) : List Nat :=
  s.data.map Char.toNat

/-- The conversion `static_cast<int>` of a `DWORD`. -/
def toInt32 (n : Nat) : Int :=
  if n % 2 ^ 32 < 2 ^ 31 then (n % 2 ^ 32 : Nat) else ((n % 2 ^ 32 : Nat) : Int) - 2 ^ 32

/-- The constant `ONESTOPBIT`. -/
def ONESTOPBIT : Nat := 0

/-- The constant `NOPARITY`. -/
def NOPARITY : Nat := 0

/-- The constant `DTR_CONTROL_ENABLE`. -/
def DTR_CONTROL_ENABLE : Nat := 1

/-- The constant `RTS_CONTROL_ENABLE`. -/
def RTS_CONTROL_ENABLE : Nat := 1

/-- The position `std::string::find` returns from a given offset: the first index at
which `pat` starts in `s`, `none` for `npos`. -/
def findFrom (pat : List Char) : List Char → Nat → Option Nat
  | [], pos => if pat = [] then some pos else none
  | c :: cs, pos => if pat.isPrefixOf (c :: cs) then some pos else findFrom pat cs (pos + 1)

/-- The call `s.find(pat)`. -/
def find (s pat : String) : Option Nat :=
  findFrom pat.data s.data 0

/-! ## `class SerialTransportImpl` -/

namespace SerialTransportImpl

/-- The method `log`: silent unless `config_.debug`, otherwise one line on standard
output (the time stamp is not kept). -/
def log (self : SerialTransportImpl) (msg level : String) : List Event :=
  if self.config_.debug = false then [] else [Event.log msg level]

/-- The `while (true)` loop of `findComPort`, from `index` on, over the values that
`RegEnumValueA` still has to give: the names appended to `ports`, and the calls made.
The loop breaks at the first call that is not `ERROR_SUCCESS`. -/
def enumLoop : List RegValue → Nat → List String × List Event
  | [], index => ([], [Event.regEnumValue index])
  | v :: rest, index =>
    let r := enumLoop rest (index + 1)
    (if v.type = REG_SZ ∧ v.dataSize > 0 then v.data :: r.1 else r.1,
      Event.regEnumValue index :: r.2)

/-- The vector `ports` of `findComPort` when the enumeration is over, with the
registry calls made on the way. -/
def enumeratePorts (os : OS) : List String × List Event :=
  if os.regOpenKeyEx = true then
    let r := enumLoop os.regEnumValue 0
    (r.1, [Event.regOpenKeyEx] ++ r.2 ++ [Event.regCloseKey])
  else
    ([], [Event.regOpenKeyEx])

/-- The method `findComPort`: the identifier returned (empty for none), and the calls
made. -/
def findComPort (os : OS) (self : SerialTransportImpl) : String × List Event :=
  let ev := self.log "Scanning for COM ports" "INFO"
  if self.config_.overridePort = true ∧ self.config_.fallbackComPort ≠ "" then
    (self.config_.fallbackComPort, ev)
  else
    let ports := enumeratePorts os
    match ports.1 with
    | front :: _ => (front, ev ++ ports.2)
    | [] =>
      if self.config_.fallbackComPort ≠ "" then
        (self.config_.fallbackComPort, ev ++ ports.2)
      else
        ("", ev ++ ports.2)

/-- The method `changeBaudTo4M`. -/
def changeBaudTo4M (os : OS) (self : SerialTransportImpl) :
    Bool × SerialTransportImpl × List Event :=
  if self.hSerial_ = INVALID_HANDLE_VALUE then
    (false, self, [])
  else if os.writeFile self.hSerial_ BAUD_CHANGE_CMD = false then
    (false, self, [Event.writeFile self.hSerial_ BAUD_CHANGE_CMD])
  else
    let ev := [Event.writeFile self.hSerial_ BAUD_CHANGE_CMD,
      Event.flushFileBuffers self.hSerial_, Event.sleep BAUD_CHANGE_DELAY_MS,
      Event.getCommState self.hSerial_]
    match os.getCommStateBaud with
    | none => (false, self, ev)
    | some dcb0 =>
      let dcb := { dcb0 with BaudRate := TARGET_BAUD }
      if os.setCommStateBaud = false then
        (false, self, ev ++ [Event.setCommState self.hSerial_ dcb])
      else
        (true, { self with currentBaud_ := TARGET_BAUD },
          ev ++ [Event.setCommState self.hSerial_ dcb])

/-- The device path `"\\\\.\\" + portName` that `openSerialPort` hands to `CreateFileA`. -/
def portPath (portName : String) : String :=
  "\\\\.\\" ++ portName

/-- The method `openSerialPort`. -/
def openSerialPort (os : OS) (self : SerialTransportImpl) (portName : String) :
    Bool × SerialTransportImpl × List Event :=
  let ev0 :=
    if self.hSerial_ ≠ INVALID_HANDLE_VALUE then [Event.closeHandle self.hSerial_] else []
  let h := os.createFile (portPath portName)
  let ev1 := ev0 ++ [Event.createFile (portPath portName) h]
  let s1 := { self with hSerial_ := h }
  let closed := { self with hSerial_ := INVALID_HANDLE_VALUE }
  if h = INVALID_HANDLE_VALUE then
    (false, s1, ev1)
  else
    match os.getCommStateOpen with
    | none => (false, closed, ev1 ++ [Event.getCommState h, Event.closeHandle h])
    | some dcb0 =>
      let dcb := { dcb0 with
        BaudRate := INITIAL_BAUD, ByteSize := 8, StopBits := ONESTOPBIT, Parity := NOPARITY,
        fDtrControl := DTR_CONTROL_ENABLE, fRtsControl := RTS_CONTROL_ENABLE }
      let ev2 := ev1 ++ [Event.getCommState h, Event.setCommState h dcb]
      if os.setCommStateOpen = false then
        (false, closed, ev2 ++ [Event.closeHandle h])
      else
        let timeouts : COMMTIMEOUTS :=
          { ReadIntervalTimeout := 0, ReadTotalTimeoutConstant := 1,
            ReadTotalTimeoutMultiplier := 0, WriteTotalTimeoutConstant := 1,
            WriteTotalTimeoutMultiplier := 0 }
        let ev3 := ev2 ++ [Event.setCommTimeouts h timeouts]
        if os.setCommTimeouts = false then
          (false, closed, ev3 ++ [Event.closeHandle h])
        else
          let ev4 := ev3 ++ [Event.purgeComm h]
          let r := changeBaudTo4M os s1
          if r.1 = false then
            (false, { r.2.1 with hSerial_ := INVALID_HANDLE_VALUE },
              ev4 ++ r.2.2 ++ [Event.closeHandle h])
          else
            (true, { r.2.1 with port_ := portName }, ev4 ++ r.2.2)

/-- The method `closeSerialPort`. -/
def closeSerialPort (self : SerialTransportImpl) : SerialTransportImpl × List Event :=
  if self.hSerial_ ≠ INVALID_HANDLE_VALUE then
    ({ self with hSerial_ := INVALID_HANDLE_VALUE }, [Event.closeHandle self.hSerial_])
  else
    (self, [])

/-- The loop condition of `listenerThread`: `!stopListener_ && connected_`. -/
def listenerCondition (self : SerialTransportImpl) : Bool :=
  !self.stopListener_ && self.connected_

/-- One pass through the body of the loop of `listenerThread`: whether the loop goes
back to its condition (`true`) or is left by `break` (`false`), and the calls made. -/
def listenerBody (os : OS) (self : SerialTransportImpl) : Bool × List Event :=
  match os.readFile with
  | .failed lastError =>
    if lastError ≠ ERROR_IO_PENDING then
      (false, [Event.readFile self.hSerial_])
    else
      (true, [Event.readFile self.hSerial_, Event.sleep 1])
  | .read bytes =>
    if bytes.length = 0 then
      (true, [Event.readFile self.hSerial_, Event.sleep 1])
    else
      (true, [Event.readFile self.hSerial_] ++
        (if self.config_.debug = true then
          self.log ("RX: " ++ String.mk (bytes.map Char.ofNat)) "DEBUG"
        else []))

/-- One turn of the thread that runs `listenerThread`, when there is one in its loop:
it tests the loop condition and, if it holds, goes once through the body.  The thread
leaves the loop, and `listenerThread` returns, when the condition fails or the body
hits `break`; the last component tells whether it did so on a read failure. -/
def listenerStep (os : OS) (self : SerialTransportImpl) :
    SerialTransportImpl × List Event × Bool :=
  if self.listenerThread_ = ThreadState.running then
    if listenerCondition self = true then
      let r := listenerBody os self
      if r.1 = true then
        (self, r.2, false)
      else
        ({ self with listenerThread_ := ThreadState.exited }, r.2, true)
    else
      ({ self with listenerThread_ := ThreadState.exited }, [], false)
  else
    (self, [], false)

/-- The method `connect`. -/
def connect (os : OS) (self : SerialTransportImpl) : Exec Unit :=
  if self.connected_ = true then
    { outcome := .returned (), state := self, trace := [] }
  else
    let found := findComPort os self
    let portToUse := found.1
    if portToUse = "" then
      { outcome := .threw (.MakcuConnectionError "MAKCU device not found"),
        state := self, trace := found.2 }
    else
      let opened := openSerialPort os self portToUse
      if opened.1 = false then
        { outcome := .threw (.MakcuConnectionError ("Failed to open serial port: " ++ portToUse)),
          state := opened.2.1, trace := found.2 ++ opened.2.2 }
      else
        let s1 := { opened.2.1 with connected_ := true, reconnectAttempts_ := 0 }
        let evInit :=
          if s1.config_.sendInit = true then
            [Event.writeFile s1.hSerial_ (bytesOf "km.buttons(1)\r\n"),
              Event.flushFileBuffers s1.hSerial_]
          else []
        let s2 := { s1 with stopListener_ := false }
        let ev := found.2 ++ opened.2.2 ++ evInit ++ [Event.threadStart]
        if s2.listenerThread_.joinable = true then
          { outcome := .terminated, state := s2, trace := ev }
        else
          { outcome := .returned (), state := { s2 with listenerThread_ := .running },
            trace := ev }

/-- The method `disconnect`.  The `join()` returns once `listenerThread()` has left its
loop, which it does at the next test of `listenerCondition`. -/
def disconnect (self : SerialTransportImpl) : Exec Unit :=
  let s1 := { self with connected_ := false, stopListener_ := true }
  let joined :=
    if s1.listenerThread_.joinable = true then
      ({ s1 with listenerThread_ := ThreadState.notJoinable }, [Event.threadJoin])
    else
      (s1, [])
  let closed := closeSerialPort joined.1
  { outcome := .returned (), state := closed.1, trace := joined.2 ++ closed.2 }

/-- The method `sendCommand`.  `timeoutMs` is the `DWORD` that
`static_cast<DWORD>(timeoutSeconds * 1000)` gives for the caller's `timeoutSeconds`. -/
def sendCommand (os : OS) (self : SerialTransportImpl) (cmd : String)
    (expectResponse : Bool) (timeoutMs : Nat) : Exec String :=
  if self.connected_ = false ∨ self.hSerial_ = INVALID_HANDLE_VALUE then
    { outcome := .threw (.MakcuConnectionError "Not connected"), state := self, trace := [] }
  else
    let formattedCmd := cmd ++ "\r\n"
    let evWrite := [Event.writeFile self.hSerial_ (bytesOf formattedCmd)]
    if os.writeFile self.hSerial_ (bytesOf formattedCmd) = false then
      { outcome := .threw (.MakcuConnectionError "Failed to write to serial port"),
        state := self, trace := evWrite }
    else
      let evFlush :=
        if expectResponse = true ∨ find cmd "km.move" = none then
          [Event.flushFileBuffers self.hSerial_]
        else []
      if expectResponse = true then
        { outcome := .returned "", state := self,
          trace := evWrite ++ evFlush ++ [Event.sleep timeoutMs] }
      else
        { outcome := .returned cmd, state := self, trace := evWrite ++ evFlush }

end SerialTransportImpl

/-! ## `class SerialTransport`: the public wrappers over `pImpl` -/

namespace SerialTransport

/-- The method `SerialTransport::isConnected`. -/
def isConnected (pImpl : SerialTransportImpl) : Bool :=
  pImpl.connected_

/-- The method `SerialTransport::getPort`. -/
def getPort (pImpl : SerialTransportImpl) : String :=
  pImpl.port_

/-- The method `SerialTransport::getBaudrate`. -/
def getBaudrate (pImpl : SerialTransportImpl) : Int :=
  toInt32 pImpl.currentBaud_

end SerialTransport

/-! ## Vocabulary of the statements -/

/-- The connection at rest, as the constructor, `disconnect` and a failed `connect`
leave it: flag down, no handle, no thread owned. -/
def Disconnected (s : SerialTransportImpl) : Prop :=
  s.connected_ = false ∧ s.hSerial_ = INVALID_HANDLE_VALUE ∧
    s.listenerThread_ = ThreadState.notJoinable

/-- The port `portName` can be opened and takes the handshake: `CreateFileA` gives a
handle for its path, the port takes its configuration and its timeouts, the baud frame
is written, and the change of rate is accepted. -/
def OpenAccepts (os : OS) (portName : String) : Prop :=
  os.createFile (SerialTransportImpl.portPath portName) ≠ INVALID_HANDLE_VALUE ∧
    os.getCommStateOpen.isSome = true ∧ os.setCommStateOpen = true ∧
    os.setCommTimeouts = true ∧
    os.writeFile (os.createFile (SerialTransportImpl.portPath portName)) BAUD_CHANGE_CMD = true ∧
    os.getCommStateBaud.isSome = true ∧ os.setCommStateBaud = true

/-- Every step of `connect` goes through: a port is located, and it can be opened and
takes the handshake. -/
def PortAccepts (os : OS) (s : SerialTransportImpl) : Prop :=
  (s.findComPort os).1 ≠ "" ∧ OpenAccepts os (s.findComPort os).1

/-- Whether an event is a log line or a registry call: the events of `findComPort`. -/
def Event.isQuiet : Event → Bool
  | .log _ _ => true
  | .regOpenKeyEx => true
  | .regEnumValue _ => true
  | .regCloseKey => true
  | _ => false

/-- Whether an event is one of the registry calls of the enumeration. -/
def Event.isRegistryQuery : Event → Bool
  | .regOpenKeyEx => true
  | .regEnumValue _ => true
  | .regCloseKey => true
  | _ => false

/-- Whether an event is a call of `CreateFileA`. -/
def Event.isCreateFile : Event → Bool
  | .createFile _ _ => true
  | _ => false

/-- Whether an event is a call of `Sleep`. -/
def Event.isSleep : Event → Bool
  | .sleep _ => true
  | _ => false

/-- The number of times a trace tries to open a port. -/
def openAttempts (tr : List Event) : Nat :=
  (tr.filter Event.isCreateFile).length

/-- The handles a trace obtained from `CreateFileA`, in order. -/
def openedHandles : List Event → List HANDLE
  | [] => []
  | .createFile _ h :: rest =>
    if h = INVALID_HANDLE_VALUE then openedHandles rest else h :: openedHandles rest
  | _ :: rest => openedHandles rest

/-- The handles a trace gave to `CloseHandle`, in order. -/
def closedHandles : List Event → List HANDLE
  | [] => []
  | .closeHandle h :: rest => h :: closedHandles rest
  | _ :: rest => closedHandles rest

/-! ## Simulated ports -/

/-- A port control block as a freshly opened port may report it. -/
def dcbOfDevice : DCB :=
  { BaudRate := 9600, ByteSize := 7, StopBits := 2, Parity := 1, fDtrControl := 0,
    fRtsControl := 0 }

/-- A machine with the devices `COM3` and `COM4`, on which every call succeeds. -/
def mockPort : OS where
  regOpenKeyEx := true
  regEnumValue := [⟨REG_SZ, 5, "COM3"⟩, ⟨REG_SZ, 5, "COM4"⟩]
  createFile := fun _ => 7
  getCommStateOpen := some dcbOfDevice
  setCommStateOpen := true
  setCommTimeouts := true
  writeFile := fun _ _ => true
  getCommStateBaud := some dcbOfDevice
  setCommStateBaud := true
  readFile := .read []

/-- The machine of `mockPort` with a port that refuses every write, the baud frame
included. -/
def rejectingPort : OS :=
  { mockPort with writeFile := fun _ _ => false }

/-- The machine of `mockPort` on which no port can be opened. -/
def unopenablePort : OS :=
  { mockPort with createFile := fun _ => INVALID_HANDLE_VALUE }

/-- A machine without any serial device, on which every call fails. -/
def hostileOS : OS where
  regOpenKeyEx := false
  regEnumValue := []
  createFile := fun _ => INVALID_HANDLE_VALUE
  getCommStateOpen := none
  setCommStateOpen := false
  setCommTimeouts := false
  writeFile := fun _ _ => false
  getCommStateBaud := none
  setCommStateBaud := false
  readFile := .failed 5

/-- A machine whose only registry value is a `REG_SZ` holding the empty string (one
byte of data, the terminator). -/
def emptyNamePort : OS :=
  { mockPort with regEnumValue := [⟨REG_SZ, 1, ""⟩] }

/-! ## `class Mouse` (`src/Mouse.cpp`): the command vocabulary -/

/-- The `DWORD` that `static_cast<DWORD>(timeoutSeconds * 1000)` gives for the default
`timeoutSeconds` of 0.1 (`DEFAULT_TIMEOUT`, and the literal in `getFirmwareVersion`). -/
def DEFAULT_TIMEOUT_MS : Nat := 100

/-- The overload `SerialTransport::sendCommand(const std::string& command)`: it calls
`pImpl->sendCommand(command, false)` and drops the string returned. -/
def SerialTransport.sendCommand (os : OS) (pImpl : SerialTransportImpl) (command : String) :
    Exec Unit :=
  let r := pImpl.sendCommand os command false DEFAULT_TIMEOUT_MS
  { outcome :=
      match r.outcome with
      | .returned _ => .returned ()
      | .threw e => .threw e
      | .terminated => .terminated
    state := r.state
    trace := r.trace }

/-- Modelled from the spec: the enumeration `MouseButton` of `enums.h`, a header that is
not among the sources.  Its enumerators are the five that `Mouse::getButtonCommand` and
the examples name; `other` stands for any further value, which reaches the `default`
label of the `switch`. -/
inductive MouseButton where
  | LEFT
  | RIGHT
  | MIDDLE
  | MOUSE4
  | MOUSE5
  | other (value : Int)
deriving DecidableEq, Repr

/-- The fields of `class Mouse` next to the reference `transport_`, as the constructor
sets them. -/
structure Mouse where
  lockStatesCache_ : Int := 0
  cacheValid_ : Bool := false
deriving DecidableEq, Repr

/-- A finished call of a method of `Mouse`: its outcome, the `Mouse` and the transport
afterwards, and the events issued on the transport. -/
structure MouseExec (α : Type) where
  outcome : Outcome α
  mouse : Mouse
  transport : SerialTransportImpl
  trace : List Event
deriving DecidableEq, Repr

namespace Mouse

/-- The method `getButtonCommand`. -/
def getButtonCommand (button : MouseButton) : Except MakcuError String :=
  match button with
  | .LEFT => .ok "left"
  | .RIGHT => .ok "right"
  | .MIDDLE => .ok "middle"
  | .MOUSE4 => .ok "ms1"
  | .MOUSE5 => .ok "ms2"
  | .other _ => .error (.MakcuCommandError "Unsupported button")

/-- The method `getPressCommand`. -/
def getPressCommand (button : MouseButton) : Except MakcuError String :=
  match getButtonCommand button with
  | .ok name => .ok ("km." ++ name ++ "(1)")
  | .error e => .error e

/-- The method `getReleaseCommand`. -/
def getReleaseCommand (button : MouseButton) : Except MakcuError String :=
  match getButtonCommand button with
  | .ok name => .ok ("km." ++ name ++ "(0)")
  | .error e => .error e

/-- The statement `transport_.sendCommand(cmd)` inside a method that changes no field of
the `Mouse`. -/
def send (os : OS) (transport : SerialTransportImpl) (self : Mouse) (cmd : String) :
    MouseExec Unit :=
  let r := SerialTransport.sendCommand os transport cmd
  { outcome := r.outcome, mouse := self, transport := r.state, trace := r.trace }

/-- The method `press`. -/
def press (os : OS) (transport : SerialTransportImpl) (self : Mouse) (button : MouseButton) :
    MouseExec Unit :=
  match getPressCommand button with
  | .ok cmd => send os transport self cmd
  | .error e => { outcome := .threw e, mouse := self, transport := transport, trace := [] }

/-- The method `release`. -/
def release (os : OS) (transport : SerialTransportImpl) (self : Mouse)
    (button : MouseButton) : MouseExec Unit :=
  match getReleaseCommand button with
  | .ok cmd => send os transport self cmd
  | .error e => { outcome := .threw e, mouse := self, transport := transport, trace := [] }

/-- The method `click`: `press(button); release(button);`, the second statement being
reached only if the first returned. -/
def click (os : OS) (transport : SerialTransportImpl) (self : Mouse) (button : MouseButton) :
    MouseExec Unit :=
  let p := press os transport self button
  match p.outcome with
  | .returned _ =>
    let r := release os p.transport p.mouse button
    { outcome := r.outcome, mouse := r.mouse, transport := r.transport,
      trace := p.trace ++ r.trace }
  | _ => p

/-- The text `move` builds: `"km.move(" << x << "," << y << ")"`. -/
def moveCommand (x y : Int) : String :=
  "km.move(" ++ toString x ++ "," ++ toString y ++ ")"

/-- The method `move`. -/
def move (os : OS) (transport : SerialTransportImpl) (self : Mouse) (x y : Int) :
    MouseExec Unit :=
  send os transport self (moveCommand x y)

/-- The text `moveSmooth` builds. -/
def moveSmoothCommand (x y segments : Int) : String :=
  "km.move(" ++ toString x ++ "," ++ toString y ++ "," ++ toString segments ++ ")"

/-- The method `moveSmooth`. -/
def moveSmooth (os : OS) (transport : SerialTransportImpl) (self : Mouse)
    (x y segments : Int) : MouseExec Unit :=
  send os transport self (moveSmoothCommand x y segments)

/-- The text `moveBezier` builds. -/
def moveBezierCommand (x y segments ctrlX ctrlY : Int) : String :=
  "km.move(" ++ toString x ++ "," ++ toString y ++ "," ++ toString segments ++ "," ++
    toString ctrlX ++ "," ++ toString ctrlY ++ ")"

/-- The method `moveBezier`. -/
def moveBezier (os : OS) (transport : SerialTransportImpl) (self : Mouse)
    (x y segments ctrlX ctrlY : Int) : MouseExec Unit :=
  send os transport self (moveBezierCommand x y segments ctrlX ctrlY)

/-- The text `scroll` builds. -/
def scrollCommand (delta : Int) : String :=
  "km.wheel(" ++ toString delta ++ ")"

/-- The method `scroll`. -/
def scroll (os : OS) (transport : SerialTransportImpl) (self : Mouse) (delta : Int) :
    MouseExec Unit :=
  send os transport self (scrollCommand delta)

/-- The text `spoofSerial` builds: `"km.serial('" << serial << "')"`. -/
def spoofSerialCommand (serial : String) : String :=
  "km.serial('" ++ serial ++ "')"

/-- The method `spoofSerial`. -/
def spoofSerial (os : OS) (transport : SerialTransportImpl) (self : Mouse) (serial : String) :
    MouseExec Unit :=
  send os transport self (spoofSerialCommand serial)

/-- The method `resetSerial`. -/
def resetSerial (os : OS) (transport : SerialTransportImpl) (self : Mouse) : MouseExec Unit :=
  send os transport self "km.serial(0)"

/-- The method `getFirmwareVersion`: `transport_.sendCommand("km.version()", true, 0.1)`. -/
def getFirmwareVersion (os : OS) (transport : SerialTransportImpl) (self : Mouse) :
    MouseExec String :=
  let r := transport.sendCommand os "km.version()" true DEFAULT_TIMEOUT_MS
  { outcome := r.outcome, mouse := self, transport := r.state, trace := r.trace }

/-- The update of `lockStatesCache_` in the lock methods: `|= (1 << bit)` when `lock`,
`&= ~(1 << bit)` otherwise, followed by `cacheValid_ = true`. -/
def recordLock (self : Mouse) (lock : Bool) (bit : Nat) : Mouse :=
  { lockStatesCache_ :=
      if lock = true then Int.lor self.lockStatesCache_ ((1 <<< bit : Nat) : Int)
      else Int.land self.lockStatesCache_ (Int.lnot ((1 <<< bit : Nat) : Int))
    cacheValid_ := true }

/-- The method `lockLeft`: the command is sent first; the cache is updated once
`sendCommand` has returned. -/
def lockLeft (os : OS) (transport : SerialTransportImpl) (self : Mouse) (lock : Bool) :
    MouseExec Unit :=
  let r := send os transport self (if lock = true then "km.lock_ml(1)" else "km.lock_ml(0)")
  match r.outcome with
  | .returned _ => { r with mouse := recordLock self lock 0 }
  | _ => r

/-- The method `lockRight`: the command is sent first; the cache is updated once
`sendCommand` has returned. -/
def lockRight (os : OS) (transport : SerialTransportImpl) (self : Mouse) (lock : Bool) :
    MouseExec Unit :=
  let r := send os transport self (if lock = true then "km.lock_mr(1)" else "km.lock_mr(0)")
  match r.outcome with
  | .returned _ => { r with mouse := recordLock self lock 1 }
  | _ => r

/-- The method `lockMiddle`: the command is sent first; the cache is updated once
`sendCommand` has returned. -/
def lockMiddle (os : OS) (transport : SerialTransportImpl) (self : Mouse) (lock : Bool) :
    MouseExec Unit :=
  let r := send os transport self (if lock = true then "km.lock_mm(1)" else "km.lock_mm(0)")
  match r.outcome with
  | .returned _ => { r with mouse := recordLock self lock 2 }
  | _ => r

/-- The method `lockSide1`: the command is sent first; the cache is updated once
`sendCommand` has returned. -/
def lockSide1 (os : OS) (transport : SerialTransportImpl) (self : Mouse) (lock : Bool) :
    MouseExec Unit :=
  let r := send os transport self (if lock = true then "km.lock_ms1(1)" else "km.lock_ms1(0)")
  match r.outcome with
  | .returned _ => { r with mouse := recordLock self lock 3 }
  | _ => r

/-- The method `lockSide2`: the command is sent first; the cache is updated once
`sendCommand` has returned. -/
def lockSide2 (os : OS) (transport : SerialTransportImpl) (self : Mouse) (lock : Bool) :
    MouseExec Unit :=
  let r := send os transport self (if lock = true then "km.lock_ms2(1)" else "km.lock_ms2(0)")
  match r.outcome with
  | .returned _ => { r with mouse := recordLock self lock 4 }
  | _ => r

/-- The method `lockX`: the command is sent first; the cache is updated once
`sendCommand` has returned. -/
def lockX (os : OS) (transport : SerialTransportImpl) (self : Mouse) (lock : Bool) :
    MouseExec Unit :=
  let r := send os transport self (if lock = true then "km.lock_mx(1)" else "km.lock_mx(0)")
  match r.outcome with
  | .returned _ => { r with mouse := recordLock self lock 5 }
  | _ => r

/-- The method `lockY`: the command is sent first; the cache is updated once
`sendCommand` has returned. -/
def lockY (os : OS) (transport : SerialTransportImpl) (self : Mouse) (lock : Bool) :
    MouseExec Unit :=
  let r := send os transport self (if lock = true then "km.lock_my(1)" else "km.lock_my(0)")
  match r.outcome with
  | .returned _ => { r with mouse := recordLock self lock 6 }
  | _ => r

/-- The method `isLocked(MouseButton button)`: `return false;`. -/
def isLocked (transport : SerialTransportImpl) (self : Mouse) (_button : MouseButton) :
    MouseExec Bool :=
  { outcome := .returned false, mouse := self, transport := transport, trace := [] }

/-- The method `isLocked(const std::string& axisName)`: `return false;`. -/
def isLockedAxis (transport : SerialTransportImpl) (self : Mouse) (_axisName : String) :
    MouseExec Bool :=
  { outcome := .returned false, mouse := self, transport := transport, trace := [] }

/-- The method `getAllLockStates`: `return {};`, the map as its list of entries. -/
def getAllLockStates (transport : SerialTransportImpl) (self : Mouse) :
    MouseExec (List (String × Bool)) :=
  { outcome := .returned [], mouse := self, transport := transport, trace := [] }

/-- One call of a lock method, by its target and its argument. -/
inductive LockCall where
  | lockLeft (lock : Bool)
  | lockRight (lock : Bool)
  | lockMiddle (lock : Bool)
  | lockSide1 (lock : Bool)
  | lockSide2 (lock : Bool)
  | lockX (lock : Bool)
  | lockY (lock : Bool)
deriving DecidableEq, Repr

/-- The call a `LockCall` stands for. -/
def LockCall.call (os : OS) (transport : SerialTransportImpl) (self : Mouse) :
    LockCall → MouseExec Unit
  | .lockLeft lock => Mouse.lockLeft os transport self lock
  | .lockRight lock => Mouse.lockRight os transport self lock
  | .lockMiddle lock => Mouse.lockMiddle os transport self lock
  | .lockSide1 lock => Mouse.lockSide1 os transport self lock
  | .lockSide2 lock => Mouse.lockSide2 os transport self lock
  | .lockX lock => Mouse.lockX os transport self lock
  | .lockY lock => Mouse.lockY os transport self lock

/-- A sequence of lock calls made one after the other by a caller that catches what a
call throws: the `Mouse` and the transport after the last call. -/
def lockCalls (os : OS) : List LockCall → SerialTransportImpl → Mouse →
    Mouse × SerialTransportImpl
  | [], transport, self => (self, transport)
  | c :: rest, transport, self =>
    let r := c.call os transport self
    lockCalls os rest r.transport r.mouse

end Mouse

/-! ## Sessions: sequences of calls on one object -/

/-- One step in the life of a connection object: a call of a member function by the
owner, with the answers of the machine during that call, or a turn of the listener
thread between two calls. -/
inductive Op where
  | connect (os : OS)
  | disconnect
  | sendCommand (os : OS) (cmd : String) (expectResponse : Bool) (timeoutMs : Nat)
  | listener (os : OS)

/-- The object together with its history: every event issued so far, whether the
listener of the current connection has left its loop on a read failure, and whether
the process was ended by `std::terminate`. -/
structure World where
  impl : SerialTransportImpl
  trace : List Event
  readFailed : Bool
  terminated : Bool
deriving DecidableEq, Repr

/-- The world right after the constructor. -/
def World.fresh (cfg : Config) : World :=
  { impl := SerialTransportImpl.new cfg, trace := [], readFailed := false,
    terminated := false }

/-- The effect of one step.  An exception leaves the object to its owner, who goes on;
after `std::terminate` nothing happens any more. -/
def Op.apply (op : Op) (w : World) : World :=
  if w.terminated = true then w
  else
    match op with
    | .connect os =>
      let r := w.impl.connect os
      { impl := r.state, trace := w.trace ++ r.trace,
        readFailed :=
          if w.impl.connected_ = false ∧ r.outcome = Outcome.returned () then false
          else w.readFailed,
        terminated := decide (r.outcome = Outcome.terminated) }
    | .disconnect =>
      let r := w.impl.disconnect
      { w with impl := r.state, trace := w.trace ++ r.trace }
    | .sendCommand os cmd expectResponse timeoutMs =>
      let r := w.impl.sendCommand os cmd expectResponse timeoutMs
      { w with impl := r.state, trace := w.trace ++ r.trace }
    | .listener os =>
      let r := w.impl.listenerStep os
      { w with impl := r.1, trace := w.trace ++ r.2.1,
               readFailed := w.readFailed || r.2.2 }

/-- The world after a sequence of steps. -/
def run : List Op → World → World
  | [], w => w
  | op :: rest, w => run rest (op.apply w)

/-- The handles that are open after a trace, given those open before it: `CreateFileA`
adds the handle it returns, `CloseHandle` removes the one it is given. -/
def liveAfter : List HANDLE → List Event → List HANDLE
  | live, [] => live
  | live, .createFile _ h :: rest =>
    liveAfter (if h = INVALID_HANDLE_VALUE then live else h :: live) rest
  | live, .closeHandle h :: rest => liveAfter (live.erase h) rest
  | live, _ :: rest => liveAfter live rest

/-- The handles opened and not yet closed at the end of a trace. -/
def liveHandles (tr : List Event) : List HANDLE :=
  liveAfter [] tr

/-- The handle an object holds, as a list: empty for `INVALID_HANDLE_VALUE`. -/
def heldHandles (s : SerialTransportImpl) : List HANDLE :=
  if s.hSerial_ = INVALID_HANDLE_VALUE then [] else [s.hSerial_]

/-- The invariant of a session: the process is alive; the handles opened and not yet
closed are the one the object holds; a disconnected object holds no handle and owns no
thread; a connected object holds a handle, has its stop flag down, and owns a thread
that is in its loop unless a read failure made it leave. -/
def SessionInv (w : World) : Prop :=
  w.terminated = false ∧
    liveHandles w.trace = heldHandles w.impl ∧
    (w.impl.connected_ = false →
      w.impl.hSerial_ = INVALID_HANDLE_VALUE ∧
        w.impl.listenerThread_ = ThreadState.notJoinable) ∧
    (w.impl.connected_ = true →
      w.impl.hSerial_ ≠ INVALID_HANDLE_VALUE ∧ w.impl.stopListener_ = false ∧
        w.impl.listenerThread_
          = if w.readFailed = true then ThreadState.exited else ThreadState.running)

/-- What reaches the serial link: a change of the host rate, or a write of bytes. -/
inductive LinkEvent where
  | rate (baud : Nat)
  | write (bytes : List Nat)
deriving DecidableEq, Repr

/-- The rate changes and the writes of a trace, in order. -/
def linkEvents : List Event → List LinkEvent
  | [] => []
  | .setCommState _ dcb :: rest => LinkEvent.rate dcb.BaudRate :: linkEvents rest
  | .writeFile _ bytes :: rest => LinkEvent.write bytes :: linkEvents rest
  | _ :: rest => linkEvents rest

/-- The byte strings a trace hands to `WriteFile`, in order. -/
def writesOf : List Event → List (List Nat)
  | [] => []
  | .writeFile _ bytes :: rest => bytes :: writesOf rest
  | _ :: rest => writesOf rest

/-- Whether an event is a call of `FlushFileBuffers`. -/
def Event.isFlush : Event → Bool
  | .flushFileBuffers _ => true
  | _ => false

/-- The object a successful `connect` on `mockPort` leaves: connected on `COM3`. -/
def connectedMock : SerialTransportImpl :=
  (SerialTransportImpl.connect mockPort (SerialTransportImpl.new {})).state

/-- The machine of `mockPort` with a listener read that fails with
`ERROR_ACCESS_DENIED`. -/
def failingRead : OS :=
  { mockPort with readFile := ReadResult.failed 5 }

/-! ## Theorems -/

open SerialTransportImpl

/-- A freshly constructed object is at rest. -/
theorem new_disconnected (cfg : Config) : Disconnected (SerialTransportImpl.new cfg) :=
  ⟨rfl, rfl, rfl⟩

/-- The method `closeSerialPort` always leaves the handle invalid. -/
theorem closeSerialPort_hSerial (s : SerialTransportImpl) :
    (closeSerialPort s).1.hSerial_ = INVALID_HANDLE_VALUE := by
  unfold closeSerialPort
  split <;> simp_all

/-- The handles opened by two traces in a row. -/
theorem openedHandles_append (a b : List Event) :
    openedHandles (a ++ b) = openedHandles a ++ openedHandles b := by
  induction a with
  | nil => rfl
  | cons e rest ih =>
    cases e <;> simp [openedHandles, ih]
    split <;> simp

/-- The handles closed by two traces in a row. -/
theorem closedHandles_append (a b : List Event) :
    closedHandles (a ++ b) = closedHandles a ++ closedHandles b := by
  induction a with
  | nil => rfl
  | cons e rest ih => cases e <;> simp [closedHandles, ih]

/-- On a port that accepts every step `openSerialPort` returns `true`, holding the new
handle, the target rate and the port name. -/
theorem openSerialPort_ok (os : OS) (s : SerialTransportImpl) (p : String)
    (h : OpenAccepts os p) :
    (openSerialPort os s p).1 = true ∧
      (openSerialPort os s p).2.1
        = { s with hSerial_ := os.createFile (portPath p), currentBaud_ := TARGET_BAUD,
                   port_ := p } := by
  obtain ⟨h1, h2, h3, h4, h5, h6, h7⟩ := h
  obtain ⟨d1, hd1⟩ := Option.isSome_iff_exists.mp h2
  obtain ⟨d2, hd2⟩ := Option.isSome_iff_exists.mp h6
  simp [openSerialPort, changeBaudTo4M, h1, hd1, hd2, h3, h4, h5, h7]

/-- On a port that refuses a step `openSerialPort` returns `false`; an object that held
no handle is unchanged, every handle obtained is closed and no thread is started. -/
theorem openSerialPort_fail (os : OS) (s : SerialTransportImpl) (p : String)
    (hs : s.hSerial_ = INVALID_HANDLE_VALUE) (h : ¬ OpenAccepts os p) :
    (openSerialPort os s p).1 = false ∧ (openSerialPort os s p).2.1 = s ∧
      openedHandles (openSerialPort os s p).2.2 = closedHandles (openSerialPort os s p).2.2 ∧
      Event.threadStart ∉ (openSerialPort os s p).2.2 := by
  obtain ⟨cfg, hnd, port, baud, conn, stop, th, cb, mask, states, attempts⟩ := s
  simp only at hs
  subst hs
  unfold OpenAccepts at h
  by_cases h1 : os.createFile (portPath p) = INVALID_HANDLE_VALUE
  · simp [openSerialPort, h1, openedHandles, closedHandles]
  · cases hd1 : os.getCommStateOpen with
    | none => simp [openSerialPort, h1, hd1, openedHandles, closedHandles]
    | some d1 =>
      cases h3 : os.setCommStateOpen with
      | false => simp [openSerialPort, h1, hd1, h3, openedHandles, closedHandles]
      | true =>
        cases h4 : os.setCommTimeouts with
        | false => simp [openSerialPort, h1, hd1, h3, h4, openedHandles, closedHandles]
        | true =>
          cases h5 : os.writeFile (os.createFile (portPath p)) BAUD_CHANGE_CMD with
          | false =>
            simp [openSerialPort, changeBaudTo4M, h1, hd1, h3, h4, h5, openedHandles,
              closedHandles]
          | true =>
            cases hd2 : os.getCommStateBaud with
            | none =>
              simp [openSerialPort, changeBaudTo4M, h1, hd1, h3, h4, h5, hd2, openedHandles,
                closedHandles]
            | some d2 =>
              cases h7 : os.setCommStateBaud with
              | false =>
                simp [openSerialPort, changeBaudTo4M, h1, hd1, h3, h4, h5, hd2, h7,
                  openedHandles, closedHandles]
              | true =>
                exact absurd ⟨h1, by simp [hd1], h3, h4, h5, by simp [hd2], h7⟩ h

/-- The enumeration loop only calls `RegEnumValueA`. -/
theorem enumLoop_quiet (vals : List RegValue) :
    ∀ (index : Nat), ∀ e ∈ (enumLoop vals index).2, e.isQuiet = true := by
  induction vals with
  | nil =>
    intro index e he
    simp [enumLoop] at he
    subst he
    rfl
  | cons v rest ih =>
    intro index e he
    simp only [enumLoop, List.mem_cons] at he
    rcases he with he | he
    · subst he
      rfl
    · exact ih (index + 1) e he

/-- The names the enumeration loop collects: the data of the `REG_SZ` values with
`dataSize > 0`, in order. -/
theorem enumLoop_ports (vals : List RegValue) :
    ∀ (index : Nat), (enumLoop vals index).1
      = (vals.filter (fun v => decide (v.type = REG_SZ ∧ v.dataSize > 0))).map RegValue.data := by
  induction vals with
  | nil => intro index; rfl
  | cons v rest ih =>
    intro index
    by_cases hv : v.type = REG_SZ ∧ v.dataSize > 0
    · simp [enumLoop, hv, ih]
    · simp [enumLoop, hv, ih]

/-- The calls of `findComPort`: the log line, then the enumeration unless the override
applies. -/
theorem findComPort_trace (os : OS) (s : SerialTransportImpl) :
    (findComPort os s).2
      = s.log "Scanning for COM ports" "INFO" ++
        (if s.config_.overridePort = true ∧ s.config_.fallbackComPort ≠ "" then []
          else (enumeratePorts os).2) := by
  unfold findComPort
  by_cases h : s.config_.overridePort = true ∧ s.config_.fallbackComPort ≠ ""
  · simp [h]
  · simp only [h, if_false]
    cases (enumeratePorts os).1 with
    | nil => by_cases hf : s.config_.fallbackComPort = "" <;> simp [hf]
    | cons front rest => simp

/-- The method `findComPort` only logs and reads the registry. -/
theorem findComPort_quiet (os : OS) (s : SerialTransportImpl) :
    ∀ e ∈ (findComPort os s).2, e.isQuiet = true := by
  have hlog : ∀ e ∈ s.log "Scanning for COM ports" "INFO", e.isQuiet = true := by
    intro e he
    unfold SerialTransportImpl.log at he
    split at he <;> simp at he
    subst he
    rfl
  have henum : ∀ e ∈ (enumeratePorts os).2, e.isQuiet = true := by
    intro e he
    unfold enumeratePorts at he
    split at he
    · simp only [List.mem_append, List.mem_singleton, List.mem_cons, List.not_mem_nil,
        or_false] at he
      rcases he with (he | he) | he
      · subst he; rfl
      · exact enumLoop_quiet _ _ e he
      · subst he; rfl
    · simp at he
      subst he
      rfl
  intro e he
  rw [findComPort_trace] at he
  rcases List.mem_append.mp he with h | h
  · exact hlog e h
  · split at h
    · simp at h
    · exact henum e h

/-- A trace of log lines and registry calls opens and closes no handle, starts no
thread, makes no open attempt and does not sleep. -/
theorem quiet_trace (tr : List Event) (h : ∀ e ∈ tr, e.isQuiet = true) :
    openedHandles tr = [] ∧ closedHandles tr = [] ∧ Event.threadStart ∉ tr ∧
      openAttempts tr = 0 ∧ tr.filter Event.isSleep = [] := by
  induction tr with
  | nil => simp [openedHandles, closedHandles, openAttempts]
  | cons e rest ih =>
    have he := h e (List.mem_cons_self _ _)
    have hr := ih (fun x hx => h x (List.mem_cons_of_mem _ hx))
    obtain ⟨r1, r2, r3, r4, r5⟩ := hr
    unfold openAttempts at r4 ⊢
    cases e <;> simp_all [openedHandles, closedHandles, Event.isQuiet, Event.isCreateFile,
      Event.isSleep]

/-- The identifier `findComPort` returns. -/
theorem findComPort_value (os : OS) (s : SerialTransportImpl) :
    (findComPort os s).1
      = if s.config_.overridePort = true ∧ s.config_.fallbackComPort ≠ "" then
          s.config_.fallbackComPort
        else
          match (enumeratePorts os).1 with
          | front :: _ => front
          | [] => s.config_.fallbackComPort := by
  unfold findComPort
  by_cases h : s.config_.overridePort = true ∧ s.config_.fallbackComPort ≠ ""
  · simp [h]
  · simp only [h, if_false]
    cases (enumeratePorts os).1 with
    | nil => by_cases hf : s.config_.fallbackComPort = "" <;> simp [hf]
    | cons front rest => simp

/-- The object after a `connect` whose every step is accepted. -/
theorem connect_of_accepts (os : OS) (s : SerialTransportImpl) (hc : s.connected_ = false)
    (ht : s.listenerThread_ = ThreadState.notJoinable) (ha : PortAccepts os s) :
    (connect os s).outcome = Outcome.returned () ∧
      (connect os s).state
        = { s with
            hSerial_ := os.createFile (portPath (findComPort os s).1),
            currentBaud_ := TARGET_BAUD, port_ := (findComPort os s).1, connected_ := true,
            reconnectAttempts_ := 0, stopListener_ := false,
            listenerThread_ := ThreadState.running } := by
  have ho := openSerialPort_ok os s _ ha.2
  simp [connect, hc, ha.1, ho.1, ho.2, ht, ThreadState.joinable]

/-- The outcome of a `connect` on an object at rest when a step is refused. -/
theorem connect_of_rejects (os : OS) (s : SerialTransportImpl) (hs : Disconnected s)
    (ha : ¬ PortAccepts os s) :
    (∃ msg, (connect os s).outcome = Outcome.threw (MakcuError.MakcuConnectionError msg)) ∧
      (connect os s).state = s ∧ Event.threadStart ∉ (connect os s).trace ∧
      openedHandles (connect os s).trace = closedHandles (connect os s).trace := by
  obtain ⟨hc, hh, _⟩ := hs
  have hq := quiet_trace _ (findComPort_quiet os s)
  by_cases hp : (findComPort os s).1 = ""
  · simp [connect, hc, hp, hq.1, hq.2.1, hq.2.2.1]
  · have hno : ¬ OpenAccepts os (findComPort os s).1 := fun h => ha ⟨hp, h⟩
    have hf := openSerialPort_fail os s _ hh hno
    simp [connect, hc, hp, hf.1, hf.2.1, hf.2.2.1, hf.2.2.2, hq.1, hq.2.1, hq.2.2.1,
      openedHandles_append, closedHandles_append]

/-- C1: `sendCommand` on an object whose connection flag is down throws
`MakcuConnectionError("Not connected")`, issues no call at all (no write, no flush) and
leaves the object as it was, whatever the command, the flag `expectResponse`, the
timeout and the machine. -/
theorem sendCommand_disconnected (os : OS) (s : SerialTransportImpl) (cmd : String)
    (expectResponse : Bool) (timeoutMs : Nat) (h : s.connected_ = false) :
    (sendCommand os s cmd expectResponse timeoutMs).outcome
        = Outcome.threw (MakcuError.MakcuConnectionError "Not connected") ∧
      (sendCommand os s cmd expectResponse timeoutMs).trace = [] ∧
      (sendCommand os s cmd expectResponse timeoutMs).state = s := by
  simp [sendCommand, h]

/-- C1 at the three states the claim names: a fresh object, an object after
`disconnect`, and an object after a `connect` that failed on a refused baud frame. -/
theorem sendCommand_disconnected_witness :
    ((sendCommand mockPort (SerialTransportImpl.new {}) "km.left(1)" false 100).outcome
        = Outcome.threw (MakcuError.MakcuConnectionError "Not connected") ∧
      (sendCommand mockPort (SerialTransportImpl.new {}) "km.left(1)" false 100).trace = [] ∧
      (sendCommand mockPort (SerialTransportImpl.new {}) "km.left(1)" false 100).state
        = SerialTransportImpl.new {}) ∧
    ((sendCommand mockPort (disconnect (connect mockPort (SerialTransportImpl.new {})).state).state
        "km.version()" true 100).outcome
        = Outcome.threw (MakcuError.MakcuConnectionError "Not connected") ∧
      (sendCommand mockPort (disconnect (connect mockPort (SerialTransportImpl.new {})).state).state
        "km.version()" true 100).trace = [] ∧
      (sendCommand mockPort (disconnect (connect mockPort (SerialTransportImpl.new {})).state).state
        "km.version()" true 100).state
        = (disconnect (connect mockPort (SerialTransportImpl.new {})).state).state) ∧
    ((sendCommand mockPort (connect rejectingPort (SerialTransportImpl.new {})).state
        "km.move(1,2)" false 0).outcome
        = Outcome.threw (MakcuError.MakcuConnectionError "Not connected") ∧
      (sendCommand mockPort (connect rejectingPort (SerialTransportImpl.new {})).state
        "km.move(1,2)" false 0).trace = [] ∧
      (sendCommand mockPort (connect rejectingPort (SerialTransportImpl.new {})).state
        "km.move(1,2)" false 0).state
        = (connect rejectingPort (SerialTransportImpl.new {})).state) :=
  ⟨sendCommand_disconnected mockPort (SerialTransportImpl.new {}) "km.left(1)" false 100 rfl,
    sendCommand_disconnected mockPort
      (disconnect (connect mockPort (SerialTransportImpl.new {})).state).state
      "km.version()" true 100 (by decide),
    sendCommand_disconnected mockPort (connect rejectingPort (SerialTransportImpl.new {})).state
      "km.move(1,2)" false 0 (by decide)⟩

/-- C2: a `connect` on an object at rest that does not return has thrown a
`MakcuConnectionError`; the object is then as before, hence at rest (flag down, handle
invalid, no thread owned), no thread was started, and every handle `CreateFileA` gave
was handed to `CloseHandle`.  It fails as soon as one step is refused (no port located,
open, configuration, timeouts, baud frame, change of rate), in particular on a port
that rejects the 9-byte frame. -/
theorem connect_failure (os : OS) (s : SerialTransportImpl) (hs : Disconnected s) :
    ((connect os s).outcome ≠ Outcome.returned () →
      (∃ msg, (connect os s).outcome = Outcome.threw (MakcuError.MakcuConnectionError msg)) ∧
        (connect os s).state = s ∧ Disconnected (connect os s).state ∧
        Event.threadStart ∉ (connect os s).trace ∧
        openedHandles (connect os s).trace = closedHandles (connect os s).trace) ∧
      (¬ PortAccepts os s → (connect os s).outcome ≠ Outcome.returned ()) ∧
      ((∀ h, os.writeFile h BAUD_CHANGE_CMD = false) →
        (connect os s).outcome ≠ Outcome.returned ()) := by
  have hfail : ¬ PortAccepts os s → (connect os s).outcome ≠ Outcome.returned () := by
    intro ha
    obtain ⟨⟨msg, hm⟩, _⟩ := connect_of_rejects os s hs ha
    rw [hm]
    simp
  refine ⟨?_, hfail, ?_⟩
  · intro hne
    have ha : ¬ PortAccepts os s := fun ha => hne (connect_of_accepts os s hs.1 hs.2.2 ha).1
    obtain ⟨h1, h2, h3, h4⟩ := connect_of_rejects os s hs ha
    exact ⟨h1, h2, by rw [h2]; exact hs, h3, h4⟩
  · intro hw
    apply hfail
    intro ha
    have h5 := ha.2.2.2.2.2.1
    rw [hw] at h5
    exact Bool.false_ne_true h5

/-- C2 on a fresh object and a port that refuses the baud frame. -/
theorem connect_failure_witness :
    Disconnected (SerialTransportImpl.new {}) ∧
      (connect rejectingPort (SerialTransportImpl.new {})).outcome ≠ Outcome.returned () ∧
      (∃ msg, (connect rejectingPort (SerialTransportImpl.new {})).outcome
        = Outcome.threw (MakcuError.MakcuConnectionError msg)) ∧
      Disconnected (connect rejectingPort (SerialTransportImpl.new {})).state :=
  have hf : (connect rejectingPort (SerialTransportImpl.new {})).outcome
      ≠ Outcome.returned () :=
    (connect_failure rejectingPort (SerialTransportImpl.new {}) ⟨rfl, rfl, rfl⟩).2.2
      (fun _ => rfl)
  ⟨⟨rfl, rfl, rfl⟩, hf,
    ((connect_failure rejectingPort (SerialTransportImpl.new {}) ⟨rfl, rfl, rfl⟩).1 hf).1,
    ((connect_failure rejectingPort (SerialTransportImpl.new {}) ⟨rfl, rfl, rfl⟩).1 hf).2.2.1⟩

/-- C3: on an object at rest, when a port is located and it accepts the open, the
configuration and the baud handshake, `connect` returns, and afterwards `isConnected()`
is true, `getBaudrate()` is 4000000, `getPort()` is the identifier `findComPort` chose,
the reconnect counter is zero, the handle is the one `CreateFileA` gave and the
listener thread runs; this holds for every configuration. -/
theorem connect_success (os : OS) (s : SerialTransportImpl) (hs : Disconnected s)
    (ha : PortAccepts os s) :
    (connect os s).outcome = Outcome.returned () ∧
      SerialTransport.isConnected (connect os s).state = true ∧
      SerialTransport.getBaudrate (connect os s).state = 4000000 ∧
      SerialTransport.getPort (connect os s).state = (findComPort os s).1 ∧
      (connect os s).state.reconnectAttempts_ = 0 ∧
      (connect os s).state.hSerial_ = os.createFile (portPath (findComPort os s).1) ∧
      (connect os s).state.listenerThread_ = ThreadState.running := by
  obtain ⟨h1, h2⟩ := connect_of_accepts os s hs.1 hs.2.2 ha
  rw [h2]
  refine ⟨h1, rfl, ?_, rfl, rfl, rfl, rfl⟩
  simp [SerialTransport.getBaudrate, toInt32, TARGET_BAUD]

/-- C3 on a fresh object and the machine with `COM3` and `COM4`: the port is `COM3`. -/
theorem connect_success_witness :
    Disconnected (SerialTransportImpl.new {}) ∧ PortAccepts mockPort (SerialTransportImpl.new {}) ∧
      (connect mockPort (SerialTransportImpl.new {})).outcome = Outcome.returned () ∧
      SerialTransport.getBaudrate (connect mockPort (SerialTransportImpl.new {})).state
        = 4000000 ∧
      SerialTransport.getPort (connect mockPort (SerialTransportImpl.new {})).state = "COM3" :=
  have ha : PortAccepts mockPort (SerialTransportImpl.new {}) := by
    unfold PortAccepts OpenAccepts
    decide
  ⟨⟨rfl, rfl, rfl⟩, ha,
    (connect_success mockPort (SerialTransportImpl.new {}) ⟨rfl, rfl, rfl⟩ ha).1,
    (connect_success mockPort (SerialTransportImpl.new {}) ⟨rfl, rfl, rfl⟩ ha).2.2.1,
    (connect_success mockPort (SerialTransportImpl.new {}) ⟨rfl, rfl, rfl⟩ ha).2.2.2.1.trans
      (by decide)⟩

/-- C4: `connect` on an object whose connection flag is up returns at once: no
exception, no call made (no registry query, no open, no write, no thread start), and
the object, with its port identifier, baud rate and handle, is the same, whatever the
machine looks like. -/
theorem connect_connected_noop (os : OS) (s : SerialTransportImpl)
    (h : s.connected_ = true) :
    (connect os s).outcome = Outcome.returned () ∧ (connect os s).trace = [] ∧
      (connect os s).state = s ∧
      SerialTransport.isConnected (connect os s).state = true ∧
      SerialTransport.getPort (connect os s).state = SerialTransport.getPort s ∧
      SerialTransport.getBaudrate (connect os s).state = SerialTransport.getBaudrate s ∧
      (connect os s).state.hSerial_ = s.hSerial_ := by
  simp [connect, h, SerialTransport.isConnected]

/-- C4 on the object a first `connect` made, with a second `connect` on a machine
where every call would fail. -/
theorem connect_connected_noop_witness :
    (connect mockPort (SerialTransportImpl.new {})).state.connected_ = true ∧
      (connect hostileOS (connect mockPort (SerialTransportImpl.new {})).state).outcome
        = Outcome.returned () ∧
      (connect hostileOS (connect mockPort (SerialTransportImpl.new {})).state).trace = [] ∧
      (connect hostileOS (connect mockPort (SerialTransportImpl.new {})).state).state
        = (connect mockPort (SerialTransportImpl.new {})).state :=
  ⟨by decide,
    (connect_connected_noop hostileOS (connect mockPort (SerialTransportImpl.new {})).state
      (by decide)).1,
    (connect_connected_noop hostileOS (connect mockPort (SerialTransportImpl.new {})).state
      (by decide)).2.1,
    (connect_connected_noop hostileOS (connect mockPort (SerialTransportImpl.new {})).state
      (by decide)).2.2.1⟩

/-- C5: from every state `disconnect` returns without throwing, with the object at
rest (flag down, no thread owned, handle invalid) and the stop flag up, so that the
listener loop cannot be entered again; its calls are the join, if a thread was owned
(running or already exited), and then the close of the handle, if one was held, in
this order; and a second `disconnect` makes no call and changes nothing. -/
theorem disconnect_total (s : SerialTransportImpl) :
    (disconnect s).outcome = Outcome.returned () ∧
      Disconnected (disconnect s).state ∧
      (disconnect s).state.stopListener_ = true ∧
      listenerCondition { s with connected_ := false, stopListener_ := true } = false ∧
      listenerCondition (disconnect s).state = false ∧
      (disconnect s).trace
        = (if s.listenerThread_.joinable = true then [Event.threadJoin] else []) ++
          (if s.hSerial_ ≠ INVALID_HANDLE_VALUE then [Event.closeHandle s.hSerial_] else []) ∧
      disconnect (disconnect s).state
        = { outcome := Outcome.returned (), state := (disconnect s).state, trace := [] } := by
  obtain ⟨cfg, h, port, baud, conn, stop, th, cb, mask, states, attempts⟩ := s
  unfold Disconnected
  cases th <;> by_cases hh : h = INVALID_HANDLE_VALUE <;>
    simp [disconnect, closeSerialPort, listenerCondition, hh, ThreadState.joinable]

/-- C6, as the claim states it, fails: `disconnect` on a fresh object raises the stop
flag, which the constructor left down. -/
theorem disconnect_new_changes_stopListener :
    (SerialTransportImpl.new {}).stopListener_ = false ∧
      (disconnect (SerialTransportImpl.new {})).state.stopListener_ = true ∧
      (disconnect (SerialTransportImpl.new {})).state ≠ SerialTransportImpl.new {} := by
  decide

/-- C6 amended: `disconnect` on a fresh object returns without throwing and makes no
call; it raises the stop flag and leaves every other field (connection flag, handle,
port identifier, baud rate, reconnect counter and the rest) at its initial value. -/
theorem disconnect_new (cfg : Config) :
    disconnect (SerialTransportImpl.new cfg)
      = { outcome := Outcome.returned (),
          state := { SerialTransportImpl.new cfg with stopListener_ := true },
          trace := [] } := by
  simp [disconnect, closeSerialPort, SerialTransportImpl.new, ThreadState.joinable]

/-- C7: with `overridePort` set and a non-empty fallback identifier, `findComPort`
returns the fallback identifier, whatever the registry holds, and makes no registry
call: its only event is the debug log line, when `debug` is set. -/
theorem findComPort_override (os : OS) (s : SerialTransportImpl)
    (ho : s.config_.overridePort = true) (hf : s.config_.fallbackComPort ≠ "") :
    (findComPort os s).1 = s.config_.fallbackComPort ∧
      (findComPort os s).2 = s.log "Scanning for COM ports" "INFO" ∧
      ∀ e ∈ (findComPort os s).2, e.isRegistryQuery = false := by
  simp only [findComPort, ho, hf, ne_eq, not_false_eq_true, and_self, if_true, true_and]
  intro e he
  unfold SerialTransportImpl.log at he
  split at he <;> simp at he
  subst he
  rfl

/-- C7 on a machine that enumerates `COM3` and `COM4`, with the fallback `COM9`. -/
theorem findComPort_override_witness :
    (findComPort mockPort
        (SerialTransportImpl.new { fallbackComPort := "COM9", overridePort := true })).1
        = "COM9" ∧
      (findComPort mockPort
        (SerialTransportImpl.new { fallbackComPort := "COM9", overridePort := true })).2 = [] :=
  ⟨(findComPort_override mockPort
      (SerialTransportImpl.new { fallbackComPort := "COM9", overridePort := true })
      rfl (by decide)).1,
    (findComPort_override mockPort
      (SerialTransportImpl.new { fallbackComPort := "COM9", overridePort := true })
      rfl (by decide)).2.1⟩

/-- C8 at the failing input: with the fallback `COM7` configured, no override, and a
registry whose only value is a `REG_SZ` holding the empty string (one byte of data), the
value passes the filter `dataSize > 0`, `findComPort` returns `ports.front()`, which is
the empty result, and `connect` throws "MAKCU device not found"; the fallback is never
returned. -/
theorem findComPort_empty_name_not_found :
    (SerialTransportImpl.new { fallbackComPort := "COM7" }).config_.overridePort = false ∧
      (SerialTransportImpl.new { fallbackComPort := "COM7" }).config_.fallbackComPort ≠ "" ∧
      (enumeratePorts emptyNamePort).1 = [""] ∧
      (findComPort emptyNamePort (SerialTransportImpl.new { fallbackComPort := "COM7" })).1
        = "" ∧
      (connect emptyNamePort (SerialTransportImpl.new { fallbackComPort := "COM7" })).outcome
        = Outcome.threw (MakcuError.MakcuConnectionError "MAKCU device not found") := by
  decide

/-- The names `findComPort` enumerates: the data of the `REG_SZ` values with
`dataSize > 0`, in registry order, and none if the key cannot be opened. -/
theorem enumeratePorts_names (os : OS) :
    (enumeratePorts os).1
      = (if os.regOpenKeyEx = true then
          (os.regEnumValue.filter
            (fun v => decide (v.type = REG_SZ ∧ v.dataSize > 0))).map RegValue.data
        else []) := by
  unfold enumeratePorts
  split
  · exact enumLoop_ports _ _
  · rfl

/-- When the override does not apply and no enumerated name is empty, `findComPort`
returns the first enumerated name if there is one, otherwise the fallback identifier,
and its result is empty only when nothing was enumerated and no fallback is
configured. -/
theorem findComPort_named (os : OS) (s : SerialTransportImpl)
    (h : ¬ (s.config_.overridePort = true ∧ s.config_.fallbackComPort ≠ ""))
    (hn : ∀ p ∈ (enumeratePorts os).1, p ≠ "") :
    (∀ front rest, (enumeratePorts os).1 = front :: rest → (findComPort os s).1 = front) ∧
      ((enumeratePorts os).1 = [] → (findComPort os s).1 = s.config_.fallbackComPort) ∧
      ((findComPort os s).1 = "" ↔
        ((enumeratePorts os).1 = [] ∧ s.config_.fallbackComPort = "")) := by
  refine ⟨?_, ?_, ?_⟩
  · intro front rest he
    rw [findComPort_value, if_neg h, he]
  · intro he
    rw [findComPort_value, if_neg h, he]
  · rw [findComPort_value, if_neg h]
    cases hp : (enumeratePorts os).1 with
    | nil => simp
    | cons front rest =>
      have hf : front ≠ "" := hn front (by rw [hp]; exact List.mem_cons_self _ _)
      simp [hf]

/-- C9, as the claim states it, fails: with `autoReconnect` set and a port that cannot
be opened, one `connect` calls `CreateFileA` once, not three times, and throws. -/
theorem connect_unopenable_one_attempt :
    (SerialTransportImpl.new { autoReconnect := true }).config_.autoReconnect = true ∧
      openAttempts (connect unopenablePort
        (SerialTransportImpl.new { autoReconnect := true })).trace = 1 ∧
      openAttempts (connect unopenablePort
        (SerialTransportImpl.new { autoReconnect := true })).trace ≠ 3 ∧
      (connect unopenablePort (SerialTransportImpl.new { autoReconnect := true })).outcome
        = Outcome.threw
          (MakcuError.MakcuConnectionError "Failed to open serial port: COM3") := by
  decide

/-- C9 amended: whatever `autoReconnect` is, a `connect` on an object that is not
connected, for which a port is located and `CreateFileA` fails, makes exactly one open
attempt, never sleeps and never retries, throws `MakcuConnectionError` to the caller,
and leaves the connection flag down and the reconnect counter as it was. -/
theorem connect_open_failure_no_retry (os : OS) (s : SerialTransportImpl)
    (hc : s.connected_ = false) (hp : (findComPort os s).1 ≠ "")
    (ho : os.createFile (portPath (findComPort os s).1) = INVALID_HANDLE_VALUE) :
    (connect os s).outcome
        = Outcome.threw (MakcuError.MakcuConnectionError
            ("Failed to open serial port: " ++ (findComPort os s).1)) ∧
      openAttempts (connect os s).trace = 1 ∧
      (connect os s).trace.filter Event.isSleep = [] ∧
      (connect os s).state.connected_ = false ∧
      (connect os s).state.reconnectAttempts_ = s.reconnectAttempts_ := by
  obtain ⟨_, _, _, q4, q5⟩ := quiet_trace _ (findComPort_quiet os s)
  unfold openAttempts at q4 ⊢
  by_cases hh : s.hSerial_ = INVALID_HANDLE_VALUE <;>
    simp [connect, openSerialPort, hc, hp, ho, hh, q4, q5, Event.isCreateFile, Event.isSleep]

/-- C9 amended, on a fresh object with `autoReconnect` set and a machine on which no
port can be opened. -/
theorem connect_open_failure_no_retry_witness :
    (SerialTransportImpl.new { autoReconnect := true }).connected_ = false ∧
      openAttempts (connect unopenablePort
        (SerialTransportImpl.new { autoReconnect := true })).trace = 1 ∧
      (connect unopenablePort
        (SerialTransportImpl.new { autoReconnect := true })).trace.filter Event.isSleep = [] :=
  ⟨rfl,
    (connect_open_failure_no_retry unopenablePort
      (SerialTransportImpl.new { autoReconnect := true }) rfl (by decide) (by decide)).2.1,
    (connect_open_failure_no_retry unopenablePort
      (SerialTransportImpl.new { autoReconnect := true }) rfl (by decide) (by decide)).2.2.1⟩

/-- C10: `sendCommand` returns a value exactly when the object is connected with a valid
handle and the write of the command line is accepted, and the value is then the
command text itself if no response is expected and the empty string if one is; the
object is unchanged, and neither the result nor the calls depend on what the device
sent (the answer `readFile` of the machine). -/
theorem sendCommand_result (os : OS) (s : SerialTransportImpl) (cmd : String)
    (expectResponse : Bool) (timeoutMs : Nat) :
    (∀ r, (sendCommand os s cmd expectResponse timeoutMs).outcome = Outcome.returned r ↔
        (s.connected_ = true ∧ s.hSerial_ ≠ INVALID_HANDLE_VALUE ∧
          os.writeFile s.hSerial_ (bytesOf (cmd ++ "\r\n")) = true ∧
          r = if expectResponse = true then "" else cmd)) ∧
      (sendCommand os s cmd expectResponse timeoutMs).state = s ∧
      ∀ rx, sendCommand { os with readFile := rx } s cmd expectResponse timeoutMs
        = sendCommand os s cmd expectResponse timeoutMs := by
  refine ⟨?_, ?_, ?_⟩
  · intro r
    cases hc : s.connected_ <;> by_cases hh : s.hSerial_ = INVALID_HANDLE_VALUE <;>
      cases hw : os.writeFile s.hSerial_ (bytesOf (cmd ++ "\r\n")) <;>
      cases expectResponse <;> simp [sendCommand, hc, hh, hw, eq_comm]
  · cases hc : s.connected_ <;> by_cases hh : s.hSerial_ = INVALID_HANDLE_VALUE <;>
      cases hw : os.writeFile s.hSerial_ (bytesOf (cmd ++ "\r\n")) <;>
      cases expectResponse <;> simp [sendCommand, hc, hh, hw]
  · intro rx
    rfl

/-- C10 on the object a successful `connect` made: `km.left(1)` sent without expecting
a response comes back as it is, and sent expecting one gives the empty string. -/
theorem sendCommand_result_witness :
    (sendCommand mockPort (connect mockPort (SerialTransportImpl.new {})).state
        "km.left(1)" false 100).outcome = Outcome.returned "km.left(1)" ∧
      (sendCommand mockPort (connect mockPort (SerialTransportImpl.new {})).state
        "km.left(1)" true 100).outcome = Outcome.returned "" :=
  ⟨((sendCommand_result mockPort (connect mockPort (SerialTransportImpl.new {})).state
      "km.left(1)" false 100).1 "km.left(1)").mpr (by decide),
    ((sendCommand_result mockPort (connect mockPort (SerialTransportImpl.new {})).state
      "km.left(1)" true 100).1 "").mpr (by decide)⟩

/-- The bytes of two strings in a row. -/
theorem bytesOf_append (a b : String) : bytesOf (a ++ b) = bytesOf a ++ bytesOf b := by
  simp [bytesOf, String.data_append]

/-- The bytes of a command line: the command, then CR and LF. -/
theorem bytesOf_line (cmd : String) : bytesOf (cmd ++ "\r\n") = bytesOf cmd ++ [0x0D, 0x0A] := by
  rw [bytesOf_append]
  rfl

/-- The writes of two traces in a row. -/
theorem writesOf_append (a b : List Event) : writesOf (a ++ b) = writesOf a ++ writesOf b := by
  induction a with
  | nil => rfl
  | cons e rest ih => cases e <;> simp [writesOf, ih]

/-- The link events of two traces in a row. -/
theorem linkEvents_append (a b : List Event) :
    linkEvents (a ++ b) = linkEvents a ++ linkEvents b := by
  induction a with
  | nil => rfl
  | cons e rest ih => cases e <;> simp [linkEvents, ih]

/-- A trace of log lines and registry calls writes nothing and sets no rate. -/
theorem quiet_link (tr : List Event) (h : ∀ e ∈ tr, e.isQuiet = true) :
    linkEvents tr = [] ∧ writesOf tr = [] := by
  induction tr with
  | nil => simp [linkEvents, writesOf]
  | cons e rest ih =>
    have he := h e (List.mem_cons_self _ _)
    have hr := ih (fun x hx => h x (List.mem_cons_of_mem _ hx))
    cases e <;> simp_all [linkEvents, writesOf, Event.isQuiet]

/-- No command line is the baud frame: a line ends in LF, the frame in a zero byte. -/
theorem line_ne_frame (cmd : String) : bytesOf (cmd ++ "\r\n") ≠ BAUD_CHANGE_CMD := by
  intro h
  rw [bytesOf_line] at h
  have h2 := congrArg List.getLast? h
  simp [BAUD_CHANGE_CMD] at h2

/-- The calls of `sendCommand` on a connected object with a valid handle: the write of
the line, the flush when the code asks for it, the sleep when a response is expected;
after a refused write, the write alone. -/
theorem sendCommand_trace (os : OS) (s : SerialTransportImpl) (cmd : String)
    (expectResponse : Bool) (timeoutMs : Nat) (hc : s.connected_ = true)
    (hh : s.hSerial_ ≠ INVALID_HANDLE_VALUE) :
    (sendCommand os s cmd expectResponse timeoutMs).trace
      = Event.writeFile s.hSerial_ (bytesOf (cmd ++ "\r\n")) ::
        (if os.writeFile s.hSerial_ (bytesOf (cmd ++ "\r\n")) = false then []
         else
          (if expectResponse = true ∨ find cmd "km.move" = none then
            [Event.flushFileBuffers s.hSerial_] else []) ++
          (if expectResponse = true then [Event.sleep timeoutMs] else [])) := by
  cases hw : os.writeFile s.hSerial_ (bytesOf (cmd ++ "\r\n")) <;>
    cases expectResponse <;> simp [sendCommand, hc, hh, hw]

/-- The writes of `sendCommand` on a connected object with a valid handle: the line. -/
theorem sendCommand_one_write_aux (os : OS) (s : SerialTransportImpl) (cmd : String)
    (expectResponse : Bool) (timeoutMs : Nat) (hc : s.connected_ = true)
    (hh : s.hSerial_ ≠ INVALID_HANDLE_VALUE) :
    writesOf (sendCommand os s cmd expectResponse timeoutMs).trace
      = [bytesOf (cmd ++ "\r\n")] := by
  rw [sendCommand_trace os s cmd expectResponse timeoutMs hc hh]
  cases hw : os.writeFile s.hSerial_ (bytesOf (cmd ++ "\r\n")) <;>
    cases expectResponse <;> by_cases hf : find cmd "km.move" = none <;>
    simp [writesOf, hf]

/-- C11: on a connected object with a valid handle, `sendCommand` hands exactly one
buffer to `WriteFile`, on the object's handle and as its first call: the bytes of the
command followed by CR LF (0x0D 0x0A) and nothing else; when that write is refused it
throws `MakcuConnectionError("Failed to write to serial port")` and makes no further
call. -/
theorem sendCommand_one_write (os : OS) (s : SerialTransportImpl) (cmd : String)
    (expectResponse : Bool) (timeoutMs : Nat) (hc : s.connected_ = true)
    (hh : s.hSerial_ ≠ INVALID_HANDLE_VALUE) :
    writesOf (sendCommand os s cmd expectResponse timeoutMs).trace
        = [bytesOf cmd ++ [0x0D, 0x0A]] ∧
      (sendCommand os s cmd expectResponse timeoutMs).trace.head?
        = some (Event.writeFile s.hSerial_ (bytesOf cmd ++ [0x0D, 0x0A])) ∧
      (os.writeFile s.hSerial_ (bytesOf cmd ++ [0x0D, 0x0A]) = false →
        (sendCommand os s cmd expectResponse timeoutMs).outcome
            = Outcome.threw (MakcuError.MakcuConnectionError "Failed to write to serial port") ∧
          (sendCommand os s cmd expectResponse timeoutMs).trace
            = [Event.writeFile s.hSerial_ (bytesOf cmd ++ [0x0D, 0x0A])]) := by
  rw [sendCommand_trace os s cmd expectResponse timeoutMs hc hh, bytesOf_line]
  refine ⟨?_, rfl, ?_⟩
  · cases hw : os.writeFile s.hSerial_ (bytesOf cmd ++ [0x0D, 0x0A]) <;>
      cases expectResponse <;> by_cases hf : find cmd "km.move" = none <;>
      simp [writesOf, hf]
  · intro hw
    simp [sendCommand, hc, hh, hw, bytesOf_line]

/-- C11 on the object a successful `connect` made, for `km.left(1)`: the bytes written
are those of `km.left(1)` followed by 13 and 10. -/
theorem sendCommand_one_write_witness :
    connectedMock.connected_ = true ∧ connectedMock.hSerial_ ≠ INVALID_HANDLE_VALUE ∧
      writesOf (sendCommand mockPort connectedMock "km.left(1)" false 100).trace
        = [[107, 109, 46, 108, 101, 102, 116, 40, 49, 41, 13, 10]] :=
  ⟨by decide, by decide,
    (sendCommand_one_write mockPort connectedMock "km.left(1)" false 100 (by decide)
      (by decide)).1.trans (by decide)⟩

/-- The decimal digits of a number never hold the letter `k`. -/
theorem toDigitsCore_no_k (fuel : Nat) :
    ∀ (n : Nat) (acc : List Char), 'k' ∉ acc → 'k' ∉ Nat.toDigitsCore 10 fuel n acc := by
  induction fuel with
  | zero =>
    intro n acc h
    simpa [Nat.toDigitsCore] using h
  | succ f ih =>
    intro n acc h
    have hd : Nat.digitChar (n % 10) ≠ 'k' := by
      have hlt : n % 10 < 10 := Nat.mod_lt _ (by decide)
      generalize n % 10 = m at hlt
      interval_cases m <;> decide
    have hacc : 'k' ∉ Nat.digitChar (n % 10) :: acc := by
      simp only [List.mem_cons, not_or]
      exact ⟨fun h' => hd h'.symm, h⟩
    simp only [Nat.toDigitsCore]
    split
    · exact hacc
    · exact ih _ _ hacc

/-- The text an `int` is printed as never holds the letter `k`. -/
theorem toString_int_no_k (i : Int) : 'k' ∉ (toString i).data := by
  have hn : ∀ n : Nat, 'k' ∉ (toString n).data := by
    intro n
    show 'k' ∉ (Nat.repr n).data
    simp only [Nat.repr, List.asString]
    exact toDigitsCore_no_k _ _ _ (by simp)
  cases i with
  | ofNat m => exact hn m
  | negSucc m =>
    show 'k' ∉ ("-" ++ toString (Nat.succ m)).data
    rw [String.data_append]
    simp only [List.mem_append, not_or]
    exact ⟨by decide, hn _⟩

/-- A text that does not hold the first character of the pattern does not hold the
pattern. -/
theorem findFrom_none_of_not_mem (p : Char) (ps : List Char) :
    ∀ (s : List Char) (pos : Nat), p ∉ s → findFrom (p :: ps) s pos = none := by
  intro s
  induction s with
  | nil => intro pos _; simp [findFrom]
  | cons c cs ih =>
    intro pos h
    simp only [List.mem_cons, not_or] at h
    have hc : (p == c) = false := by
      simpa using h.1
    simp [findFrom, List.isPrefixOf, hc, ih (pos + 1) h.2]

/-- A text that starts with the pattern holds it at offset 0. -/
theorem find_of_isPrefixOf (cmd pat : String) (h : pat.data.isPrefixOf cmd.data = true)
    (hne : cmd.data ≠ []) : find cmd pat = some 0 := by
  unfold find
  cases hd : cmd.data with
  | nil => exact absurd hd hne
  | cons c cs =>
    rw [hd] at h
    simp [findFrom, h]

/-- The texts `move`, `moveSmooth` and `moveBezier` build hold `km.move` at offset 0. -/
theorem find_moveCommands (x y segments ctrlX ctrlY : Int) :
    find (Mouse.moveCommand x y) "km.move" = some 0 ∧
      find (Mouse.moveSmoothCommand x y segments) "km.move" = some 0 ∧
      find (Mouse.moveBezierCommand x y segments ctrlX ctrlY) "km.move" = some 0 := by
  refine ⟨?_, ?_, ?_⟩ <;>
  · apply find_of_isPrefixOf
    · simp [Mouse.moveCommand, Mouse.moveSmoothCommand, Mouse.moveBezierCommand,
        String.data_append, List.isPrefixOf]
    · simp [Mouse.moveCommand, Mouse.moveSmoothCommand, Mouse.moveBezierCommand,
        String.data_append]

/-- The text `scroll` builds does not hold `km.move`, whatever the delta. -/
theorem find_scrollCommand (delta : Int) : find (Mouse.scrollCommand delta) "km.move" = none := by
  have hk : 'k' ∉ (toString delta).data ++ [')'] := by
    simp only [List.mem_append, not_or]
    exact ⟨toString_int_no_k delta, by decide⟩
  have ht := findFrom_none_of_not_mem 'k' ['m', '.', 'm', 'o', 'v', 'e'] _ 9 hk
  simp [find, Mouse.scrollCommand, String.data_append, findFrom, List.isPrefixOf]
  exact ht

/-- The flushes of `sendCommand` after an accepted write on a connected object: one,
when a response is expected or the command does not hold `km.move`; none otherwise. -/
theorem sendCommand_flushes (os : OS) (s : SerialTransportImpl) (cmd : String)
    (expectResponse : Bool) (timeoutMs : Nat) (hc : s.connected_ = true)
    (hh : s.hSerial_ ≠ INVALID_HANDLE_VALUE)
    (hw : os.writeFile s.hSerial_ (bytesOf (cmd ++ "\r\n")) = true) :
    (sendCommand os s cmd expectResponse timeoutMs).trace.filter Event.isFlush
      = if expectResponse = true ∨ find cmd "km.move" = none then
          [Event.flushFileBuffers s.hSerial_]
        else [] := by
  rw [sendCommand_trace os s cmd expectResponse timeoutMs hc hh]
  cases expectResponse <;> by_cases hf : find cmd "km.move" = none <;>
    simp [hw, hf, Event.isFlush]

/-- The fixed texts of the facade for buttons do not hold `km.move`. -/
theorem find_buttonCommands (button : MouseButton) (cmd : String)
    (h : Mouse.getPressCommand button = Except.ok cmd ∨
      Mouse.getReleaseCommand button = Except.ok cmd) :
    find cmd "km.move" = none := by
  cases button <;>
    simp [Mouse.getPressCommand, Mouse.getReleaseCommand, Mouse.getButtonCommand] at h <;>
    rcases h with h | h <;> (subst h; decide)

/-- The fixed texts of the lock methods, of `getFirmwareVersion` and of `resetSerial` do
not hold `km.move`. -/
theorem find_fixedCommands :
    ∀ cmd ∈ ["km.lock_ml(1)", "km.lock_ml(0)", "km.lock_mr(1)", "km.lock_mr(0)",
      "km.lock_mm(1)", "km.lock_mm(0)", "km.lock_ms1(1)", "km.lock_ms1(0)", "km.lock_ms2(1)",
      "km.lock_ms2(0)", "km.lock_mx(1)", "km.lock_mx(0)", "km.lock_my(1)", "km.lock_my(0)",
      "km.version()", "km.serial(0)"], find cmd "km.move" = none := by
  decide

/-- C12 at the failing input: on a connected object whose port accepts every write,
`spoofSerial("km.move")` sends the line `km.serial('km.move')` and returns, and the
port is not flushed, because the text holds `km.move` (at offset 11); with the serial
`A1B2` the same call does flush. -/
theorem spoofSerial_move_not_flushed :
    Mouse.spoofSerialCommand "km.move" = "km.serial('km.move')" ∧
      find (Mouse.spoofSerialCommand "km.move") "km.move" = some 11 ∧
      (Mouse.spoofSerial mockPort connectedMock {} "km.move").outcome = Outcome.returned () ∧
      (Mouse.spoofSerial mockPort connectedMock {} "km.move").trace
        = [Event.writeFile connectedMock.hSerial_ (bytesOf "km.serial('km.move')\r\n")] ∧
      (Mouse.spoofSerial mockPort connectedMock {} "km.move").trace.filter Event.isFlush = [] ∧
      (Mouse.spoofSerial mockPort connectedMock {} "A1B2").trace
        = [Event.writeFile connectedMock.hSerial_ (bytesOf "km.serial('A1B2')\r\n"),
            Event.flushFileBuffers connectedMock.hSerial_] := by
  decide

/-- The link events of `openSerialPort` on a port that accepts every step: the rate
115200, the baud frame, the rate 4000000. -/
theorem openSerialPort_ok_link (os : OS) (s : SerialTransportImpl) (p : String)
    (h : OpenAccepts os p) :
    linkEvents (openSerialPort os s p).2.2
      = [LinkEvent.rate INITIAL_BAUD, LinkEvent.write BAUD_CHANGE_CMD,
          LinkEvent.rate TARGET_BAUD] := by
  obtain ⟨h1, h2, h3, h4, h5, h6, h7⟩ := h
  obtain ⟨d1, hd1⟩ := Option.isSome_iff_exists.mp h2
  obtain ⟨d2, hd2⟩ := Option.isSome_iff_exists.mp h6
  by_cases hh : s.hSerial_ = INVALID_HANDLE_VALUE <;>
    simp [openSerialPort, changeBaudTo4M, h1, hd1, hd2, h3, h4, h5, h7, hh, linkEvents]

/-- The link events of a `connect` whose every step is accepted. -/
theorem connect_link (os : OS) (s : SerialTransportImpl) (hc : s.connected_ = false)
    (ha : PortAccepts os s) :
    linkEvents (connect os s).trace
      = [LinkEvent.rate INITIAL_BAUD, LinkEvent.write BAUD_CHANGE_CMD,
          LinkEvent.rate TARGET_BAUD] ++
        (if s.config_.sendInit = true then [LinkEvent.write (bytesOf "km.buttons(1)\r\n")]
          else []) := by
  have ho := openSerialPort_ok os s _ ha.2
  have hl := openSerialPort_ok_link os s _ ha.2
  have hq := (quiet_link _ (findComPort_quiet os s)).1
  by_cases hi : s.config_.sendInit = true <;>
    by_cases hj : s.listenerThread_.joinable = true <;>
    simp [connect, hc, ha.1, ho.1, ho.2, hi, hj, linkEvents_append, hl, hq, linkEvents]

/-- The writes among link events. -/
theorem writesOf_eq_of_link (tr : List Event) :
    writesOf tr = (linkEvents tr).filterMap
      (fun e => match e with
        | LinkEvent.write b => some b
        | LinkEvent.rate _ => none) := by
  induction tr with
  | nil => rfl
  | cons e rest ih => cases e <;> simp [writesOf, linkEvents, ih]

/-- C13: a `connect` that returns on an object at rest reaches the link with, in this
order: the host rate 115200, the frame DE AD 05 00 A5 00 09 3D 00, the host rate
4000000, and then the line `km.buttons(1)` CR LF exactly when `sendInit` is set; these
are all its writes.  Afterwards no `sendCommand` writes the frame, a `connect` on a
connected object makes no call, and the listener never writes. -/
theorem connect_writes (os : OS) (s : SerialTransportImpl) (hs : Disconnected s)
    (hr : (connect os s).outcome = Outcome.returned ()) :
    linkEvents (connect os s).trace
        = [LinkEvent.rate 115200,
            LinkEvent.write [0xDE, 0xAD, 0x05, 0x00, 0xA5, 0x00, 0x09, 0x3D, 0x00],
            LinkEvent.rate 4000000] ++
          (if s.config_.sendInit = true then
            [LinkEvent.write (bytesOf "km.buttons(1)" ++ [0x0D, 0x0A])] else []) ∧
      writesOf (connect os s).trace
        = [0xDE, 0xAD, 0x05, 0x00, 0xA5, 0x00, 0x09, 0x3D, 0x00] ::
          (if s.config_.sendInit = true then [bytesOf "km.buttons(1)" ++ [0x0D, 0x0A]]
            else []) ∧
      (∀ (os2 : OS) (s2 : SerialTransportImpl) (cmd : String) (expectResponse : Bool)
          (timeoutMs : Nat),
        [0xDE, 0xAD, 0x05, 0x00, 0xA5, 0x00, 0x09, 0x3D, 0x00]
          ∉ writesOf (sendCommand os2 s2 cmd expectResponse timeoutMs).trace) ∧
      (∀ os2 : OS, (connect os2 (connect os s).state).trace = []) ∧
      (∀ (os2 : OS) (s2 : SerialTransportImpl), writesOf (listenerStep os2 s2).2.1 = []) := by
  have ha : PortAccepts os s := by
    by_contra hn
    obtain ⟨⟨msg, hm⟩, _⟩ := connect_of_rejects os s hs hn
    rw [hm] at hr
    cases hr
  have hl := connect_link os s hs.1 ha
  have hst := (connect_of_accepts os s hs.1 hs.2.2 ha).2
  refine ⟨?_, ?_, ?_, ?_, ?_⟩
  · rw [hl]
    rfl
  · rw [writesOf_eq_of_link, hl]
    by_cases hi : s.config_.sendInit = true
    · simp [hi, BAUD_CHANGE_CMD]
      rfl
    · simp [hi, BAUD_CHANGE_CMD]
  · intro os2 s2 cmd expectResponse timeoutMs hmem
    have hne := line_ne_frame cmd
    by_cases hc2 : s2.connected_ = true
    · by_cases hh2 : s2.hSerial_ = INVALID_HANDLE_VALUE
      · simp [sendCommand, hc2, hh2, writesOf] at hmem
      · rw [(sendCommand_one_write_aux os2 s2 cmd expectResponse timeoutMs hc2 hh2)] at hmem
        simp only [List.mem_singleton] at hmem
        exact hne hmem.symm
    · simp [sendCommand, hc2, writesOf] at hmem
  · intro os2
    rw [hst]
    simp [connect]
  · intro os2 s2
    unfold listenerStep listenerBody SerialTransportImpl.log
    repeat' split
    all_goals simp [writesOf]

/-- C13 on a fresh object (`sendInit` set by default) and the mock port: the writes are
the frame and then `km.buttons(1)` CR LF. -/
theorem connect_writes_witness :
    Disconnected (SerialTransportImpl.new {}) ∧
      (connect mockPort (SerialTransportImpl.new {})).outcome = Outcome.returned () ∧
      writesOf (connect mockPort (SerialTransportImpl.new {})).trace
        = [[0xDE, 0xAD, 0x05, 0x00, 0xA5, 0x00, 0x09, 0x3D, 0x00],
            [107, 109, 46, 98, 117, 116, 116, 111, 110, 115, 40, 49, 41, 13, 10]] ∧
      linkEvents (connect mockPort (SerialTransportImpl.new { sendInit := false })).trace
        = [LinkEvent.rate 115200,
            LinkEvent.write [0xDE, 0xAD, 0x05, 0x00, 0xA5, 0x00, 0x09, 0x3D, 0x00],
            LinkEvent.rate 4000000] :=
  ⟨⟨rfl, rfl, rfl⟩, by decide,
    (connect_writes mockPort (SerialTransportImpl.new {}) ⟨rfl, rfl, rfl⟩ (by decide)).2.1.trans
      (by decide),
    (connect_writes mockPort (SerialTransportImpl.new { sendInit := false }) ⟨rfl, rfl, rfl⟩
      (by decide)).1.trans (by decide)⟩

/-- The open handles after two traces in a row. -/
theorem liveAfter_append (a b : List Event) :
    ∀ live : List HANDLE, liveAfter live (a ++ b) = liveAfter (liveAfter live a) b := by
  induction a with
  | nil => intro live; rfl
  | cons e rest ih => intro live; cases e <;> simp [liveAfter, ih]

/-- A trace of log lines and registry calls opens and closes nothing. -/
theorem quiet_live (tr : List Event) (h : ∀ e ∈ tr, e.isQuiet = true) :
    ∀ live : List HANDLE, liveAfter live tr = live := by
  induction tr with
  | nil => intro live; rfl
  | cons e rest ih =>
    intro live
    have he := h e (List.mem_cons_self _ _)
    have hr := ih (fun x hx => h x (List.mem_cons_of_mem _ hx))
    cases e <;> simp_all [liveAfter, Event.isQuiet]

/-- After `openSerialPort` on an object that held no handle, the open handles are the
one the object holds, whichever step failed. -/
theorem openSerialPort_live (os : OS) (s : SerialTransportImpl) (p : String)
    (hs : s.hSerial_ = INVALID_HANDLE_VALUE) :
    liveAfter [] (openSerialPort os s p).2.2 = heldHandles (openSerialPort os s p).2.1 := by
  by_cases h1 : os.createFile (portPath p) = INVALID_HANDLE_VALUE
  · simp [openSerialPort, h1, hs, liveAfter, heldHandles]
  · cases hd1 : os.getCommStateOpen with
    | none => simp [openSerialPort, h1, hd1, hs, liveAfter, heldHandles]
    | some d1 =>
      cases h3 : os.setCommStateOpen with
      | false => simp [openSerialPort, h1, hd1, h3, hs, liveAfter, heldHandles]
      | true =>
        cases h4 : os.setCommTimeouts with
        | false => simp [openSerialPort, h1, hd1, h3, h4, hs, liveAfter, heldHandles]
        | true =>
          cases h5 : os.writeFile (os.createFile (portPath p)) BAUD_CHANGE_CMD with
          | false =>
            simp [openSerialPort, changeBaudTo4M, h1, hd1, h3, h4, h5, hs, liveAfter,
              heldHandles]
          | true =>
            cases hd2 : os.getCommStateBaud with
            | none =>
              simp [openSerialPort, changeBaudTo4M, h1, hd1, h3, h4, h5, hd2, hs, liveAfter,
                heldHandles]
            | some d2 =>
              cases h7 : os.setCommStateBaud <;>
                simp [openSerialPort, changeBaudTo4M, h1, hd1, h3, h4, h5, hd2, h7, hs,
                  liveAfter, heldHandles]

/-- After `connect` on an object at rest, the open handles are the one the object
holds. -/
theorem connect_live (os : OS) (s : SerialTransportImpl) (hs : Disconnected s) :
    liveAfter [] (connect os s).trace = heldHandles (connect os s).state := by
  obtain ⟨hc, hh, ht⟩ := hs
  have hq := quiet_live _ (findComPort_quiet os s)
  have ho := openSerialPort_live os s (findComPort os s).1 hh
  by_cases hp : (findComPort os s).1 = ""
  · simp [connect, hc, hp, hq, heldHandles, hh]
  · cases hb : (openSerialPort os s (findComPort os s).1).1 with
    | false =>
      simp [connect, hc, hp, hb, liveAfter_append, hq, ho]
    | true =>
      by_cases hi : (openSerialPort os s (findComPort os s).1).2.1.config_.sendInit = true <;>
        by_cases hj :
          (openSerialPort os s (findComPort os s).1).2.1.listenerThread_.joinable = true <;>
        simp [connect, hc, hp, hb, hi, hj, liveAfter_append, hq, ho, liveAfter, heldHandles]

/-- The world after the constructor satisfies the invariant. -/
theorem sessionInv_fresh (cfg : Config) : SessionInv (World.fresh cfg) := by
  simp [SessionInv, World.fresh, SerialTransportImpl.new, liveHandles, liveAfter, heldHandles]

/-- The calls of `sendCommand` and its effect on the object leave the handles alone. -/
theorem sendCommand_live (os : OS) (s : SerialTransportImpl) (cmd : String)
    (expectResponse : Bool) (timeoutMs : Nat) (live : List HANDLE) :
    (sendCommand os s cmd expectResponse timeoutMs).state = s ∧
      liveAfter live (sendCommand os s cmd expectResponse timeoutMs).trace = live := by
  cases hc : s.connected_ <;> by_cases hh : s.hSerial_ = INVALID_HANDLE_VALUE <;>
    cases hw : os.writeFile s.hSerial_ (bytesOf (cmd ++ "\r\n")) <;>
    cases expectResponse <;> by_cases hf : find cmd "km.move" = none <;>
    simp [sendCommand, hc, hh, hw, hf, liveAfter]

/-- A turn of the listener changes at most the thread state, and its calls leave the
handles alone. -/
theorem listenerStep_live (os : OS) (s : SerialTransportImpl) (live : List HANDLE) :
    liveAfter live (listenerStep os s).2.1 = live ∧
      (listenerStep os s).1 = { s with listenerThread_ := (listenerStep os s).1.listenerThread_ } := by
  unfold listenerStep listenerBody SerialTransportImpl.log
  repeat' split
  all_goals simp [liveAfter]

/-- One step keeps the invariant. -/
theorem sessionInv_apply (op : Op) (w : World) (h : SessionInv w) : SessionInv (op.apply w) := by
  obtain ⟨ht, hl, hd, hcn⟩ := h
  cases op with
  | connect os =>
    cases hc : w.impl.connected_ with
    | true =>
      have h2 := hcn hc
      refine ⟨?_, ?_, ?_, ?_⟩
      · simp [Op.apply, ht, connect, hc]
      · simpa [Op.apply, ht, connect, hc] using hl
      · intro hd2
        simp [Op.apply, ht, connect, hc] at hd2
      · intro _
        simpa [Op.apply, ht, connect, hc] using h2
    | false =>
      have hdis : Disconnected w.impl := ⟨hc, (hd hc).1, (hd hc).2⟩
      have hlive := connect_live os w.impl hdis
      have hl0 : liveHandles w.trace = [] := by
        rw [hl]
        simp [heldHandles, hdis.2.1]
      have hl2 : liveHandles (w.trace ++ (connect os w.impl).trace)
          = heldHandles (connect os w.impl).state := by
        unfold liveHandles at hl0 ⊢
        rw [liveAfter_append, hl0, hlive]
      by_cases ha : PortAccepts os w.impl
      · obtain ⟨ho, hst⟩ := connect_of_accepts os w.impl hc hdis.2.2 ha
        refine ⟨?_, ?_, ?_, ?_⟩
        · simp [Op.apply, ht, ho]
        · simpa [Op.apply, ht] using hl2
        · intro hd2
          simp [Op.apply, ht, hst] at hd2
        · intro _
          have hv := ha.2.1
          simp [Op.apply, ht, hst, ho, hc, hv]
      · obtain ⟨⟨msg, hm⟩, hst, _, _⟩ := connect_of_rejects os w.impl hdis ha
        refine ⟨?_, ?_, ?_, ?_⟩
        · simp [Op.apply, ht, hm]
        · simpa [Op.apply, ht] using hl2
        · intro _
          simpa [Op.apply, ht, hst] using hd hc
        · intro hc2
          simp [Op.apply, ht, hst, hc] at hc2
  | disconnect =>
    have hl2 : liveAfter (heldHandles w.impl) (disconnect w.impl).trace = [] := by
      cases hj : w.impl.listenerThread_ <;>
        by_cases hh : w.impl.hSerial_ = INVALID_HANDLE_VALUE <;>
        simp [disconnect, closeSerialPort, hj, hh, ThreadState.joinable, liveAfter,
          heldHandles]
    have hst : (disconnect w.impl).state.connected_ = false ∧
        (disconnect w.impl).state.hSerial_ = INVALID_HANDLE_VALUE ∧
        (disconnect w.impl).state.listenerThread_ = ThreadState.notJoinable := by
      cases hj : w.impl.listenerThread_ <;>
        by_cases hh : w.impl.hSerial_ = INVALID_HANDLE_VALUE <;>
        simp [disconnect, closeSerialPort, hj, hh, ThreadState.joinable]
    refine ⟨?_, ?_, ?_, ?_⟩
    · simp [Op.apply, ht]
    · have : liveHandles (w.trace ++ (disconnect w.impl).trace) = [] := by
        unfold liveHandles at hl ⊢
        rw [liveAfter_append, hl, hl2]
      simp [Op.apply, ht, this, heldHandles, hst.2.1]
    · intro _
      simpa [Op.apply, ht] using hst.2
    · intro hc2
      simp [Op.apply, ht, hst.1] at hc2
  | sendCommand os cmd expectResponse timeoutMs =>
    obtain ⟨hst, hlv⟩ := sendCommand_live os w.impl cmd expectResponse timeoutMs
      (liveHandles w.trace)
    refine ⟨?_, ?_, ?_, ?_⟩
    · simp [Op.apply, ht]
    · have : liveHandles (w.trace ++ (sendCommand os w.impl cmd expectResponse timeoutMs).trace)
          = liveHandles w.trace := by
        unfold liveHandles at hlv ⊢
        rw [liveAfter_append, hlv]
      simp [Op.apply, ht, this, hst, hl]
    · intro hc2
      simp only [Op.apply, ht, hst] at hc2 ⊢
      simpa using hd (by simpa using hc2)
    · intro hc2
      simp only [Op.apply, ht, hst] at hc2 ⊢
      simpa using hcn (by simpa using hc2)
  | listener os =>
    have hlv := (listenerStep_live os w.impl (liveHandles w.trace)).1
    have hl2 : liveHandles (w.trace ++ (listenerStep os w.impl).2.1) = heldHandles w.impl := by
      unfold liveHandles at hlv hl ⊢
      rw [liveAfter_append, hlv, hl]
    by_cases hr : w.impl.listenerThread_ = ThreadState.running
    · have hc : w.impl.connected_ = true := by
        cases hcc : w.impl.connected_ with
        | true => rfl
        | false =>
          rw [(hd hcc).2] at hr
          cases hr
      obtain ⟨hv, hstop, hth⟩ := hcn hc
      have hrf : w.readFailed = false := by
        cases hrf : w.readFailed with
        | false => rfl
        | true =>
          rw [hrf] at hth
          rw [hr] at hth
          simp at hth
      have hcond : listenerCondition w.impl = true := by
        simp [listenerCondition, hstop, hc]
      cases hb : (listenerBody os w.impl).1 with
      | false =>
        have hstep : listenerStep os w.impl
            = ({ w.impl with listenerThread_ := ThreadState.exited },
                (listenerBody os w.impl).2, true) := by
          simp [listenerStep, hr, hcond, hb]
        rw [hstep] at hl2
        refine ⟨?_, ?_, ?_, ?_⟩
        · simp [Op.apply, ht]
        · simpa [Op.apply, ht, hstep, heldHandles] using hl2
        · intro hc2
          simp [Op.apply, ht, hstep, hc] at hc2
        · intro _
          simp [Op.apply, ht, hstep, hv, hstop]
      | true =>
        have hstep : listenerStep os w.impl
            = (w.impl, (listenerBody os w.impl).2, false) := by
          simp [listenerStep, hr, hcond, hb]
        rw [hstep] at hl2
        refine ⟨?_, ?_, ?_, ?_⟩
        · simp [Op.apply, ht]
        · simpa [Op.apply, ht, hstep] using hl2
        · intro hc2
          simp [Op.apply, ht, hstep, hc] at hc2
        · intro _
          simp [Op.apply, ht, hstep, hv, hstop, hrf, hr]
    · have hstep : listenerStep os w.impl = (w.impl, [], false) := by
        simp [listenerStep, hr]
      rw [hstep] at hl2
      refine ⟨?_, ?_, ?_, ?_⟩
      · simp [Op.apply, ht]
      · simpa [Op.apply, ht, hstep] using hl2
      · intro hc2
        simp only [Op.apply, ht, hstep] at hc2 ⊢
        simpa using hd (by simpa using hc2)
      · intro hc2
        simp only [Op.apply, ht, hstep] at hc2 ⊢
        simpa using hcn (by simpa using hc2)

/-- Every sequence of steps keeps the invariant. -/
theorem sessionInv_run (ops : List Op) : ∀ w : World, SessionInv w → SessionInv (run ops w) := by
  induction ops with
  | nil => intro w h; exact h
  | cons op rest ih => intro w h; exact ih _ (sessionInv_apply op w h)

/-- C14: after every sequence of `connect`, `disconnect`, `sendCommand` and listener
turns on a fresh object, with any answers of the machine, the handles opened and not
yet closed are exactly the one the object holds when it is connected and none when it
is not: at most one at any time, and zero whenever the state is Disconnected. -/
theorem session_one_handle (cfg : Config) (ops : List Op) :
    liveHandles (run ops (World.fresh cfg)).trace
        = (if (run ops (World.fresh cfg)).impl.connected_ = true then
            [(run ops (World.fresh cfg)).impl.hSerial_] else []) ∧
      (liveHandles (run ops (World.fresh cfg)).trace).length ≤ 1 ∧
      (run ops (World.fresh cfg)).terminated = false := by
  obtain ⟨ht, hl, hd, hcn⟩ := sessionInv_run ops _ (sessionInv_fresh cfg)
  have hlive : liveHandles (run ops (World.fresh cfg)).trace
      = (if (run ops (World.fresh cfg)).impl.connected_ = true then
          [(run ops (World.fresh cfg)).impl.hSerial_] else []) := by
    rw [hl]
    cases hc : (run ops (World.fresh cfg)).impl.connected_ with
    | true => simp [heldHandles, (hcn hc).1]
    | false => simp [heldHandles, (hd hc).1]
  refine ⟨hlive, ?_, ht⟩
  rw [hlive]
  split <;> simp

/-- C14 on a session that connects to the mock port, sends a command and has a listener
read fail: one handle is open, the one the object holds. -/
theorem session_one_handle_witness :
    liveHandles (run [Op.connect mockPort, Op.sendCommand mockPort "km.left(1)" false 100,
        Op.listener failingRead] (World.fresh {})).trace = [7] ∧
      liveHandles (run [Op.connect mockPort, Op.disconnect, Op.connect rejectingPort]
        (World.fresh {})).trace = [] :=
  ⟨(session_one_handle {} [Op.connect mockPort, Op.sendCommand mockPort "km.left(1)" false 100,
      Op.listener failingRead]).1.trans (by decide),
    (session_one_handle {} [Op.connect mockPort, Op.disconnect,
      Op.connect rejectingPort]).1.trans (by decide)⟩


/-- C15, as the claim states it, fails: after a `connect` and one listener turn whose
read fails, the object is still connected and its thread has left the loop. -/
theorem listener_exits_while_connected :
    (run [Op.connect mockPort, Op.listener failingRead] (World.fresh {})).impl.connected_
        = true ∧
      (run [Op.connect mockPort, Op.listener failingRead] (World.fresh {})).impl.listenerThread_
        = ThreadState.exited ∧
      (run [Op.connect mockPort, Op.listener failingRead] (World.fresh {})).impl.listenerThread_
        ≠ ThreadState.running := by
  decide

/-- C15 amended: after every sequence of `connect`, `disconnect`, `sendCommand` and
listener turns on a fresh object, the listener thread is in its loop exactly when the
object is connected and no read failure has ended the loop since that connection was
made; and the object owns a thread (running or exited) exactly when it is connected. -/
theorem session_listener (cfg : Config) (ops : List Op) :
    ((run ops (World.fresh cfg)).impl.listenerThread_ = ThreadState.running ↔
        ((run ops (World.fresh cfg)).impl.connected_ = true ∧
          (run ops (World.fresh cfg)).readFailed = false)) ∧
      ((run ops (World.fresh cfg)).impl.listenerThread_.joinable = true ↔
        (run ops (World.fresh cfg)).impl.connected_ = true) := by
  obtain ⟨_, _, hd, hcn⟩ := sessionInv_run ops _ (sessionInv_fresh cfg)
  cases hc : (run ops (World.fresh cfg)).impl.connected_ with
  | true =>
    obtain ⟨_, _, hth⟩ := hcn hc
    cases hrf : (run ops (World.fresh cfg)).readFailed <;>
      simp [hth, hrf, ThreadState.joinable]
  | false =>
    simp [(hd hc).2, ThreadState.joinable]

/-- C15 amended, on a session that connects and whose listener reads nothing, then
data: the thread is still in its loop. -/
theorem session_listener_witness :
    (run [Op.connect mockPort, Op.listener mockPort,
        Op.listener { mockPort with readFile := ReadResult.read [0x6B, 0x6D] }]
      (World.fresh {})).impl.listenerThread_ = ThreadState.running :=
  (session_listener {} [Op.connect mockPort, Op.listener mockPort,
    Op.listener { mockPort with readFile := ReadResult.read [0x6B, 0x6D] }]).1.mpr (by decide)

/-- The statement `transport_.sendCommand(cmd)` on a connected transport: its one write
is the line, and the transport and the `Mouse` are as before. -/
theorem send_writes (os : OS) (t : SerialTransportImpl) (m : Mouse) (cmd : String)
    (hc : t.connected_ = true) (hh : t.hSerial_ ≠ INVALID_HANDLE_VALUE) :
    writesOf (Mouse.send os t m cmd).trace = [bytesOf cmd ++ [0x0D, 0x0A]] ∧
      (Mouse.send os t m cmd).transport = t ∧ (Mouse.send os t m cmd).mouse = m := by
  refine ⟨?_, ?_, rfl⟩
  · show writesOf (sendCommand os t cmd false DEFAULT_TIMEOUT_MS).trace = _
    rw [sendCommand_one_write_aux os t cmd false DEFAULT_TIMEOUT_MS hc hh, bytesOf_line]
  · exact (sendCommand_live os t cmd false DEFAULT_TIMEOUT_MS []).1

/-- The statement `transport_.sendCommand(cmd)` returns when the write is accepted. -/
theorem send_returns (os : OS) (t : SerialTransportImpl) (m : Mouse) (cmd : String)
    (hc : t.connected_ = true) (hh : t.hSerial_ ≠ INVALID_HANDLE_VALUE)
    (hw : os.writeFile t.hSerial_ (bytesOf cmd ++ [0x0D, 0x0A]) = true) :
    (Mouse.send os t m cmd).outcome = Outcome.returned () := by
  rw [← bytesOf_line] at hw
  simp [Mouse.send, SerialTransport.sendCommand, sendCommand, hc, hh, hw]

/-- The statement `transport_.sendCommand(cmd)` throws when the write is refused. -/
theorem send_throws (os : OS) (t : SerialTransportImpl) (m : Mouse) (cmd : String)
    (hc : t.connected_ = true) (hh : t.hSerial_ ≠ INVALID_HANDLE_VALUE)
    (hw : os.writeFile t.hSerial_ (bytesOf cmd ++ [0x0D, 0x0A]) = false) :
    (Mouse.send os t m cmd).outcome
      = Outcome.threw (MakcuError.MakcuConnectionError "Failed to write to serial port") := by
  rw [← bytesOf_line] at hw
  simp [Mouse.send, SerialTransport.sendCommand, sendCommand, hc, hh, hw]

/-- C16, as the claim states it, fails: on a connected transport whose port refuses the
write, `click(LEFT)` writes the press line, throws out of `press`, and never writes the
release line. -/
theorem click_refused_press_only :
    connectedMock.connected_ = true ∧ connectedMock.hSerial_ ≠ INVALID_HANDLE_VALUE ∧
      writesOf (Mouse.click rejectingPort connectedMock {} MouseButton.LEFT).trace
        = [bytesOf "km.left(1)" ++ [0x0D, 0x0A]] ∧
      writesOf (Mouse.click rejectingPort connectedMock {} MouseButton.LEFT).trace
        ≠ [bytesOf "km.left(1)" ++ [0x0D, 0x0A], bytesOf "km.left(0)" ++ [0x0D, 0x0A]] ∧
      (Mouse.click rejectingPort connectedMock {} MouseButton.LEFT).outcome
        = Outcome.threw (MakcuError.MakcuConnectionError "Failed to write to serial port") := by
  decide

/-- C16 amended: on a connected transport, for each of the five buttons with its wire
name (LEFT left, RIGHT right, MIDDLE middle, MOUSE4 ms1, MOUSE5 ms2), the only write of
`press` is `km.<name>(1)` CR LF and the only write of `release` is `km.<name>(0)` CR LF;
when the port accepts the press line, the writes of `click` are the press line followed
by the release line and nothing else; when the port refuses the press line, `click`
throws `MakcuConnectionError` and its only write is the press line. -/
theorem button_lines (os : OS) (t : SerialTransportImpl) (m : Mouse)
    (hc : t.connected_ = true) (hh : t.hSerial_ ≠ INVALID_HANDLE_VALUE) :
    ∀ (button : MouseButton) (name : String),
      (button, name) ∈ [(MouseButton.LEFT, "left"), (MouseButton.RIGHT, "right"),
        (MouseButton.MIDDLE, "middle"), (MouseButton.MOUSE4, "ms1"),
        (MouseButton.MOUSE5, "ms2")] →
      writesOf (Mouse.press os t m button).trace
          = [bytesOf ("km." ++ name ++ "(1)") ++ [0x0D, 0x0A]] ∧
        writesOf (Mouse.release os t m button).trace
          = [bytesOf ("km." ++ name ++ "(0)") ++ [0x0D, 0x0A]] ∧
        (os.writeFile t.hSerial_ (bytesOf ("km." ++ name ++ "(1)") ++ [0x0D, 0x0A]) = true →
          writesOf (Mouse.click os t m button).trace
            = [bytesOf ("km." ++ name ++ "(1)") ++ [0x0D, 0x0A],
                bytesOf ("km." ++ name ++ "(0)") ++ [0x0D, 0x0A]]) ∧
        (os.writeFile t.hSerial_ (bytesOf ("km." ++ name ++ "(1)") ++ [0x0D, 0x0A]) = false →
          (Mouse.click os t m button).outcome
              = Outcome.threw
                (MakcuError.MakcuConnectionError "Failed to write to serial port") ∧
            writesOf (Mouse.click os t m button).trace
              = [bytesOf ("km." ++ name ++ "(1)") ++ [0x0D, 0x0A]]) := by
  intro button name hmem
  have hcmd : Mouse.getPressCommand button = Except.ok ("km." ++ name ++ "(1)") ∧
      Mouse.getReleaseCommand button = Except.ok ("km." ++ name ++ "(0)") := by
    simp only [List.mem_cons, Prod.mk.injEq, List.mem_singleton, List.not_mem_nil,
      or_false] at hmem
    rcases hmem with ⟨hb, hn⟩ | ⟨hb, hn⟩ | ⟨hb, hn⟩ | ⟨hb, hn⟩ | ⟨hb, hn⟩ <;>
      subst hb <;> subst hn <;> exact ⟨rfl, rfl⟩
  obtain ⟨hp, hr⟩ := hcmd
  have hpress : Mouse.press os t m button = Mouse.send os t m ("km." ++ name ++ "(1)") := by
    simp [Mouse.press, hp]
  have hrel : ∀ t2 m2, Mouse.release os t2 m2 button
      = Mouse.send os t2 m2 ("km." ++ name ++ "(0)") := by
    intro t2 m2
    simp [Mouse.release, hr]
  obtain ⟨hw1, ht1, hm1⟩ := send_writes os t m ("km." ++ name ++ "(1)") hc hh
  obtain ⟨hw0, _, _⟩ := send_writes os t m ("km." ++ name ++ "(0)") hc hh
  refine ⟨by rw [hpress, hw1], by rw [hrel, hw0], ?_, ?_⟩
  · intro hw
    have hret := send_returns os t m ("km." ++ name ++ "(1)") hc hh hw
    simp only [Mouse.click, hpress, hret, hrel, ht1, hm1, writesOf_append, hw1, hw0]
    rfl
  · intro hw
    have hthr := send_throws os t m ("km." ++ name ++ "(1)") hc hh hw
    simp only [Mouse.click, hpress, hthr, hw1]
    exact ⟨trivial, trivial⟩

/-- C16 amended, for the `click(LEFT)` of the example program on the connected mock
port, which accepts the press line. -/
theorem button_lines_witness :
    connectedMock.connected_ = true ∧ connectedMock.hSerial_ ≠ INVALID_HANDLE_VALUE ∧
      writesOf (Mouse.click mockPort connectedMock {} MouseButton.LEFT).trace
        = [bytesOf "km.left(1)" ++ [0x0D, 0x0A], bytesOf "km.left(0)" ++ [0x0D, 0x0A]] :=
  ⟨by decide, by decide,
    (button_lines mockPort connectedMock {} (by decide) (by decide) MouseButton.LEFT "left"
      (by decide)).2.2.1 rfl⟩

/-- The object after `disconnect`: flag down, stop flag up, no thread, no handle, and
every other field as before. -/
theorem disconnect_state (s : SerialTransportImpl) :
    (disconnect s).state
      = { s with connected_ := false, stopListener_ := true,
                 listenerThread_ := ThreadState.notJoinable,
                 hSerial_ := INVALID_HANDLE_VALUE } := by
  obtain ⟨cfg, h, port, baud, conn, stop, th, cb, mask, states, attempts⟩ := s
  cases th <;> by_cases hh : h = INVALID_HANDLE_VALUE <;>
    simp [disconnect, closeSerialPort, hh, ThreadState.joinable]

/-- C17: `getPort()` and `getBaudrate()` give the empty string and 0 on a fresh object;
`disconnect` changes neither of them on any object; after a `connect` that succeeded
on an object at rest and a `disconnect`, `isConnected()` is false while they still give
the port that was connected and 4000000; and a later `connect` that fails leaves both
as they are. -/
theorem port_baud_kept (cfg : Config) (os : OS) (s : SerialTransportImpl)
    (hs : Disconnected s) (ha : PortAccepts os s) :
    SerialTransport.getPort (SerialTransportImpl.new cfg) = "" ∧
      SerialTransport.getBaudrate (SerialTransportImpl.new cfg) = 0 ∧
      (∀ s2 : SerialTransportImpl,
        SerialTransport.getPort (disconnect s2).state = SerialTransport.getPort s2 ∧
          SerialTransport.getBaudrate (disconnect s2).state
            = SerialTransport.getBaudrate s2) ∧
      SerialTransport.isConnected (disconnect (connect os s).state).state = false ∧
      SerialTransport.getPort (disconnect (connect os s).state).state
        = (findComPort os s).1 ∧
      SerialTransport.getBaudrate (disconnect (connect os s).state).state = 4000000 ∧
      (∀ os2 : OS,
        (connect os2 (disconnect (connect os s).state).state).outcome ≠ Outcome.returned () →
          SerialTransport.getPort (connect os2 (disconnect (connect os s).state).state).state
              = (findComPort os s).1 ∧
            SerialTransport.getBaudrate
              (connect os2 (disconnect (connect os s).state).state).state = 4000000) := by
  have hst := (connect_of_accepts os s hs.1 hs.2.2 ha).2
  have hbaud : toInt32 TARGET_BAUD = 4000000 := by
    simp [toInt32, TARGET_BAUD]
  have hport : SerialTransport.getPort (disconnect (connect os s).state).state
      = (findComPort os s).1 := by
    rw [disconnect_state, hst]
    rfl
  have hrate : SerialTransport.getBaudrate (disconnect (connect os s).state).state
      = 4000000 := by
    rw [disconnect_state, hst]
    exact hbaud
  refine ⟨rfl, ?_, ?_, ?_, hport, hrate, ?_⟩
  · simp [SerialTransport.getBaudrate, SerialTransportImpl.new, toInt32]
  · intro s2
    rw [disconnect_state]
    exact ⟨rfl, rfl⟩
  · rw [disconnect_state]
    rfl
  · intro os2 hne
    have hdis : Disconnected (disconnect (connect os s).state).state := by
      rw [disconnect_state]
      exact ⟨rfl, rfl, rfl⟩
    have hrej : ¬ PortAccepts os2 (disconnect (connect os s).state).state := fun h =>
      hne (connect_of_accepts os2 _ hdis.1 hdis.2.2 h).1
    rw [(connect_of_rejects os2 _ hdis hrej).2.1]
    exact ⟨hport, hrate⟩

/-- C17 on a fresh object connected to `COM3` on the mock port, disconnected, and then
connected again on a port that refuses the baud frame. -/
theorem port_baud_kept_witness :
    Disconnected (SerialTransportImpl.new {}) ∧
      PortAccepts mockPort (SerialTransportImpl.new {}) ∧
      SerialTransport.getPort
        (disconnect (connect mockPort (SerialTransportImpl.new {})).state).state = "COM3" ∧
      SerialTransport.getBaudrate
        (disconnect (connect mockPort (SerialTransportImpl.new {})).state).state = 4000000 ∧
      SerialTransport.getPort
        (connect rejectingPort
          (disconnect (connect mockPort (SerialTransportImpl.new {})).state).state).state
        = "COM3" :=
  have ha : PortAccepts mockPort (SerialTransportImpl.new {}) := by
    unfold PortAccepts OpenAccepts
    decide
  ⟨⟨rfl, rfl, rfl⟩, ha,
    (port_baud_kept {} mockPort (SerialTransportImpl.new {}) ⟨rfl, rfl, rfl⟩ ha).2.2.2.2.1.trans
      (by decide),
    (port_baud_kept {} mockPort (SerialTransportImpl.new {}) ⟨rfl, rfl, rfl⟩ ha).2.2.2.2.2.1,
    ((port_baud_kept {} mockPort (SerialTransportImpl.new {}) ⟨rfl, rfl, rfl⟩ ha).2.2.2.2.2.2
      rejectingPort (by decide)).1.trans (by decide)⟩

/-- C18: after every sequence of lock calls, on any transport and any machine,
`isLocked(button)` and `isLocked(axisName)` return `false` for every argument and
`getAllLockStates()` returns the empty map; none of the three makes a call on the
transport or changes the `Mouse`.  For instance `lockLeft(true)` on a connected
transport records bit 0 in `lockStatesCache_` and marks the cache valid, and
`isLocked(LEFT)` right after it still returns `false`. -/
theorem lock_queries_ignore_cache (os : OS) (calls : List Mouse.LockCall) (t : SerialTransportImpl)
    (m : Mouse) (button : MouseButton) (axisName : String) :
    Mouse.isLocked (Mouse.lockCalls os calls t m).2 (Mouse.lockCalls os calls t m).1 button
        = { outcome := Outcome.returned false, mouse := (Mouse.lockCalls os calls t m).1,
            transport := (Mouse.lockCalls os calls t m).2, trace := [] } ∧
      Mouse.isLockedAxis (Mouse.lockCalls os calls t m).2 (Mouse.lockCalls os calls t m).1
          axisName
        = { outcome := Outcome.returned false, mouse := (Mouse.lockCalls os calls t m).1,
            transport := (Mouse.lockCalls os calls t m).2, trace := [] } ∧
      Mouse.getAllLockStates (Mouse.lockCalls os calls t m).2 (Mouse.lockCalls os calls t m).1
        = { outcome := Outcome.returned [], mouse := (Mouse.lockCalls os calls t m).1,
            transport := (Mouse.lockCalls os calls t m).2, trace := [] } ∧
      (Mouse.lockLeft mockPort connectedMock {} true).mouse
        = { lockStatesCache_ := 1, cacheValid_ := true } ∧
      (Mouse.isLocked (Mouse.lockLeft mockPort connectedMock {} true).transport
        (Mouse.lockLeft mockPort connectedMock {} true).mouse MouseButton.LEFT).outcome
        = Outcome.returned false ∧
      (Mouse.lockCalls mockPort
        [Mouse.LockCall.lockLeft true, Mouse.LockCall.lockX true]
        connectedMock {}).1 = { lockStatesCache_ := 33, cacheValid_ := true } :=
  ⟨rfl, rfl, rfl, by decide, rfl, by decide⟩

end makcu
